import Mathlib

/-
Verification of the table-joining and metric-derivation layer of the
product-usage analytics dashboard (src/app.py).

The embedding models pandas tables as Lean lists of records.  Company
identifiers are integers (the app coerces them to a single numeric type
with pd.to_numeric before every join).  Case-insensitive substring tests
(pandas str.contains(..., case=False)) are modelled at character level by
lower-casing both haystack and pattern.  Timestamps are modelled at day
granularity as integers (the retention logic only ever compares whole-day
differences after .dt.normalize()); an unparseable date (NaT) is None.
-/

/- ------------------------------------------------------------------ -/
/- String helpers (ASCII-level model of str.lower / str.strip /
   str.contains(case=False))                                          -/
/- ------------------------------------------------------------------ -/

/-- Lower-case a string character by character (model of Python str.lower). -/
def str_lower (s : String) : String := ⟨s.data.map Char.toLower⟩

/-- Drop whitespace from both ends of a character list. -/
def trim_chars (l : List Char) : List Char :=
  ((l.dropWhile Char.isWhitespace).reverse.dropWhile Char.isWhitespace).reverse

/-- Model of Python str.strip(). -/
def str_trim (s : String) : String := ⟨trim_chars s.data⟩

/-- Does the pattern occur as a contiguous run inside the list? -/
def infix_chars (pat : List Char) : List Char → Bool
  | [] => pat.isEmpty
  | c :: rest => pat.isPrefixOf (c :: rest) || infix_chars pat rest

/-- Case-insensitive substring test: model of
    pandas Series.str.contains(pat, case=False, na=False) on one cell. -/
def containsCI (s pat : String) : Bool :=
  infix_chars (str_lower pat).data (str_lower s).data

/- ------------------------------------------------------------------ -/
/- Exclusion Filter (load_data lines 161-198 and the pre-computed
   analysis path of create_corrected_analysis lines 228-257)          -/
/- ------------------------------------------------------------------ -/

/-- A signup row as seen by the exclusion rules. -/
structure SigRow where
  company_id : Int
  email : String
  slug : String
  company_name : String
deriving DecidableEq, Repr

/-- Rule (a): the email contains the internal domain (app.py line 167). -/
def email_excluded (r : SigRow) : Bool := containsCI r.email "@jelou.ai"

/-- Rule (b): the slug contains the internal substring (app.py line 176). -/
def slug_excluded (r : SigRow) : Bool := containsCI r.slug "jelou"

/-- Rule (c): the trimmed lower-cased company name is in the deny-list
    (app.py line 193). -/
def name_excluded (excluded : List String) (r : SigRow) : Bool :=
  excluded.contains (str_lower (str_trim r.company_name))

/-- Extra rule applied only on the pre-computed analysis path: the email
    contains the substring impersonate (app.py line 233). -/
def impersonate_excluded (r : SigRow) : Bool := containsCI r.email "impersonate"

/-- Deny-list pre-processing: every raw name is stripped and lower-cased
    (app.py line 188 / 250). -/
def load_excluded_names (raw : List String) : List String :=
  raw.map (fun n => str_lower (str_trim n))

/-- Exclusion filter applied to the raw signups table in load_data
    (lines 161-198): email rule, then slug rule, then - when the deny-list
    is non-empty - the company-name rule. -/
def filter_signups (excluded : List String) (rows : List SigRow) : List SigRow :=
  let r1 := rows.filter (fun r => !(email_excluded r))
  let r2 := r1.filter (fun r => !(slug_excluded r))
  if 0 < excluded.length then r2.filter (fun r => !(name_excluded excluded r)) else r2

/-- Exclusion filter applied when a pre-computed combined table is supplied
    (create_corrected_analysis lines 228-257): email rule, impersonate rule,
    slug rule, then - when the deny-list is non-empty - the name rule. -/
def filter_analysis (excluded : List String) (rows : List SigRow) : List SigRow :=
  let r1 := rows.filter (fun r => !(email_excluded r))
  let r2 := r1.filter (fun r => !(impersonate_excluded r))
  let r3 := r2.filter (fun r => !(slug_excluded r))
  if 0 < excluded.length then r3.filter (fun r => !(name_excluded excluded r)) else r3

/- ------------------------------------------------------------------ -/
/- Subscriptions CSV row normalisation (load_data lines 127-145)      -/
/- ------------------------------------------------------------------ -/

/-- Pad a shorter-than-header row with empty fields, truncate a longer one
    (app.py lines 138-141). -/
def pad_or_truncate (n : Nat) (row : List String) : List String :=
  if row.length < n then row ++ List.replicate (n - row.length) ""
  else if n < row.length then row.take n
  else row

/-- Row normalisation for subscriptions.csv: a data row is kept only when it
    has at least 5 fields (app.py line 136), in which case it is padded or
    truncated to the header length. -/
def parse_subscription_rows (headers : List String) (raws : List (List String)) :
    List (List String) :=
  raws.filterMap (fun row =>
    if 5 ≤ row.length then some (pad_or_truncate headers.length row) else none)

/- ------------------------------------------------------------------ -/
/- Feature Join Engine: create_corrected_analysis building from the
   signups spine (app.py lines 334-484).  Each source table is joined
   independently; an absent (None) or empty source contributes default
   values.  The engagement and session-duration merges are raw left
   joins (not grouped first), so duplicate keys on the right side
   duplicate output rows, exactly as pandas merge does; the grouped
   merges (bot counts, paid sums, template sums) have unique keys.     -/
/- ------------------------------------------------------------------ -/

/-- One subscriptions row (columns used by the join). -/
structure SubRow where
  company_id : Int
  status : String
  product_name : String
deriving DecidableEq, Repr

/-- One bots/channels row (columns used by the join). -/
structure BotRow where
  company_id : Int
  in_production : Int
  state : Int
deriving DecidableEq, Repr

/-- One credit-wallet row (columns used by the join). -/
structure WalletRow where
  company_id : Int
  total_used : Int
  exceeded_free_tier : Int
deriving DecidableEq, Repr

/-- One stripe-invoices row (columns used by the join). -/
structure InvoiceRow where
  company_id : Int
  amount_paid : Int
deriving DecidableEq, Repr

/-- One template-usage row (columns used by the join). -/
structure TemplateRow where
  company_id : Int
  total_events : Int
  created_templates : Int
deriving DecidableEq, Repr

/-- One company-engagement row (columns used by the join). -/
structure EngRow where
  company_id : Int
  sandbox_executions : Int
  prod_executions : Int
deriving DecidableEq, Repr

/-- One sessions-duration row, after the rename to
    company_id / total_time_minutes / avg_session_minutes / session_count
    (app.py line 472). -/
structure SdRow where
  company_id : Int
  total_time_minutes : Int
  avg_session_minutes : Int
  session_count : Int
deriving DecidableEq, Repr

/-- One row of the joined analysis table: the signup spine plus every
    derived boolean/count column.  The unused merged raw columns
    (total_events, sandbox_executions, prod_executions) are not carried:
    no derived metric reads them after the join. -/
structure ARow where
  company_id : Int
  has_subscription : Bool := false
  has_active : Bool := false
  has_trialing : Bool := false
  has_brain_studio : Bool := false
  brain_active : Bool := false
  has_connect : Bool := false
  connect_active : Bool := false
  connect_trialing : Bool := false
  has_bot : Bool := false
  has_prod_channel : Bool := false
  bot_count : Int := 0
  used_conversations : Bool := false
  exceeded_free_tier : Bool := false
  actually_paid : Bool := false
  total_paid : Int := 0
  created_templates : Int := 0
  has_template_usage : Bool := false
  has_workflow : Bool := false
  has_sandbox : Bool := false
  has_prod_exec : Bool := false
  total_time_minutes : Int := 0
  avg_session_minutes : Int := 0
  session_count_sd : Int := 0
deriving DecidableEq, Repr

/-- Subscription flags for one company (app.py lines 342-377). -/
def subs_apply (sl : List SubRow) (r : ARow) : ARow :=
  let mine := fun (s : SubRow) => s.company_id == r.company_id
  let brain := sl.filter (fun s => containsCI s.product_name "Brain")
  let conn := sl.filter (fun s => containsCI s.product_name "Connect")
  { r with
    has_subscription := sl.any mine
    has_active := sl.any (fun s => mine s && s.status == "ACTIVE")
    has_trialing := sl.any (fun s => mine s && s.status == "TRIALING")
    has_brain_studio := brain.any mine
    brain_active := brain.any (fun s => mine s && s.status == "ACTIVE")
    has_connect := conn.any mine
    connect_active := conn.any (fun s => mine s && s.status == "ACTIVE")
    connect_trialing := conn.any (fun s => mine s && s.status == "TRIALING") }

/-- Subscription defaults when the source is absent (app.py lines 378-386). -/
def subs_zero (r : ARow) : ARow :=
  { r with
    has_subscription := false, has_active := false, has_trialing := false
    has_brain_studio := false, brain_active := false, has_connect := false
    connect_active := false, connect_trialing := false }

/-- Subscription join stage. -/
def subs_stage (subs : Option (List SubRow)) (rows : List ARow) : List ARow :=
  match subs with
  | some sl => if 0 < sl.length then rows.map (subs_apply sl) else rows.map subs_zero
  | none => rows.map subs_zero

/-- Bot flags for one company (app.py lines 389-401): bot existence by id
    membership, live-in-production only when one bot row has
    in_production = 1 and state = 1 simultaneously, bot count by group size. -/
def bots_apply (bl : List BotRow) (r : ARow) : ARow :=
  { r with
    has_bot := bl.any (fun b => b.company_id == r.company_id)
    has_prod_channel :=
      (bl.filter (fun b => b.in_production == 1 && b.state == 1)).any
        (fun b => b.company_id == r.company_id)
    bot_count := ((bl.filter (fun b => b.company_id == r.company_id)).length : Int) }

/-- Bot defaults when the source is absent (app.py lines 402-405). -/
def bots_zero (r : ARow) : ARow :=
  { r with has_bot := false, has_prod_channel := false, bot_count := 0 }

/-- Bot join stage. -/
def bots_stage (bots : Option (List BotRow)) (rows : List ARow) : List ARow :=
  match bots with
  | some bl => if 0 < bl.length then rows.map (bots_apply bl) else rows.map bots_zero
  | none => rows.map bots_zero

/-- Credit-wallet flags for one company (app.py lines 408-413). -/
def wallet_apply (wl : List WalletRow) (r : ARow) : ARow :=
  { r with
    used_conversations :=
      (wl.filter (fun w => 0 < w.total_used)).any (fun w => w.company_id == r.company_id)
    exceeded_free_tier :=
      (wl.filter (fun w => w.exceeded_free_tier == 1)).any
        (fun w => w.company_id == r.company_id) }

/-- Credit-wallet defaults when the source is absent (app.py lines 414-416). -/
def wallet_zero (r : ARow) : ARow :=
  { r with used_conversations := false, exceeded_free_tier := false }

/-- Credit-wallet join stage. -/
def wallet_stage (wallet : Option (List WalletRow)) (rows : List ARow) : List ARow :=
  match wallet with
  | some wl => if 0 < wl.length then rows.map (wallet_apply wl) else rows.map wallet_zero
  | none => rows.map wallet_zero

/-- Invoice flags for one company (app.py lines 419-428): paid when any
    invoice has positive amount, total as the per-company sum of positive
    invoice amounts (fillna 0 for companies with none). -/
def invoices_apply (il : List InvoiceRow) (r : ARow) : ARow :=
  let paid := il.filter (fun i => 0 < i.amount_paid)
  { r with
    actually_paid := paid.any (fun i => i.company_id == r.company_id)
    total_paid :=
      ((paid.filter (fun i => i.company_id == r.company_id)).map
        (fun i => i.amount_paid)).sum }

/-- Invoice defaults when the source is absent (app.py lines 429-431). -/
def invoices_zero (r : ARow) : ARow :=
  { r with actually_paid := false, total_paid := 0 }

/-- Invoice join stage. -/
def invoices_stage (invoices : Option (List InvoiceRow)) (rows : List ARow) : List ARow :=
  match invoices with
  | some il => if 0 < il.length then rows.map (invoices_apply il) else rows.map invoices_zero
  | none => rows.map invoices_zero

/-- Template flags for one company (app.py lines 434-445): per-company sum of
    created_templates (fillna 0), boolean from count > 0. -/
def templates_apply (tl : List TemplateRow) (r : ARow) : ARow :=
  let ct := ((tl.filter (fun t => t.company_id == r.company_id)).map
    (fun t => t.created_templates)).sum
  { r with created_templates := ct, has_template_usage := 0 < ct }

/-- Template defaults when the source is absent (app.py lines 446-448). -/
def templates_zero (r : ARow) : ARow :=
  { r with created_templates := 0, has_template_usage := false }

/-- Template join stage. -/
def templates_stage (templates : Option (List TemplateRow)) (rows : List ARow) : List ARow :=
  match templates with
  | some tl => if 0 < tl.length then rows.map (templates_apply tl) else rows.map templates_zero
  | none => rows.map templates_zero

/-- Engagement flags from one matched engagement row (app.py lines 457-461). -/
def eng_apply (e : EngRow) (r : ARow) : ARow :=
  { r with
    has_workflow := 0 < e.sandbox_executions + e.prod_executions
    has_sandbox := 0 < e.sandbox_executions
    has_prod_exec := 0 < e.prod_executions }

/-- Engagement defaults for an unmatched company or an absent source
    (fillna 0 makes every flag false; app.py lines 459-465). -/
def eng_zero (r : ARow) : ARow :=
  { r with has_workflow := false, has_sandbox := false, has_prod_exec := false }

/-- The output rows one signup contributes to the engagement merge: one row
    per matching engagement row, or a single default row when unmatched. -/
def eng_matches (el : List EngRow) (r : ARow) : List ARow :=
  match el.filter (fun e => e.company_id == r.company_id) with
  | [] => [eng_zero r]
  | ms => ms.map (fun e => eng_apply e r)

/-- Engagement join stage: a raw left merge, so a company matched by k
    engagement rows yields k output rows. -/
def eng_stage (engagement : Option (List EngRow)) (rows : List ARow) : List ARow :=
  match engagement with
  | some el =>
    if 0 < el.length then rows.flatMap (eng_matches el) else rows.map eng_zero
  | none => rows.map eng_zero

/-- Session-duration columns from one matched row (app.py lines 469-478). -/
def sd_apply (s : SdRow) (r : ARow) : ARow :=
  { r with
    total_time_minutes := s.total_time_minutes
    avg_session_minutes := s.avg_session_minutes
    session_count_sd := s.session_count }

/-- Session-duration defaults for an unmatched company or an absent source
    (app.py lines 476-482). -/
def sd_zero (r : ARow) : ARow :=
  { r with total_time_minutes := 0, avg_session_minutes := 0, session_count_sd := 0 }

/-- The output rows one signup contributes to the session-duration merge. -/
def sd_matches (sl : List SdRow) (r : ARow) : List ARow :=
  match sl.filter (fun s => s.company_id == r.company_id) with
  | [] => [sd_zero r]
  | ms => ms.map (fun s => sd_apply s r)

/-- Session-duration join stage: a raw left merge like the engagement stage. -/
def sd_stage (sessions_duration : Option (List SdRow)) (rows : List ARow) : List ARow :=
  match sessions_duration with
  | some sl =>
    if 0 < sl.length then rows.flatMap (sd_matches sl) else rows.map sd_zero
  | none => rows.map sd_zero

/-- The signup spine: one default row per signup company id. -/
def analysis_base (signups : List Int) : List ARow :=
  signups.map (fun c => { company_id := c })

/-- create_corrected_analysis, from-signups path (app.py lines 334-484):
    the cleaned signups spine left-joined with each source in program order. -/
def create_corrected_analysis (signups : List Int)
    (subs : Option (List SubRow)) (bots : Option (List BotRow))
    (wallet : Option (List WalletRow)) (invoices : Option (List InvoiceRow))
    (templates : Option (List TemplateRow)) (engagement : Option (List EngRow))
    (sessions_duration : Option (List SdRow)) : List ARow :=
  sd_stage sessions_duration
    (eng_stage engagement
      (templates_stage templates
        (invoices_stage invoices
          (wallet_stage wallet
            (bots_stage bots
              (subs_stage subs (analysis_base signups)))))))

/- ------------------------------------------------------------------ -/
/- Retention Calculator: calculate_retention_curve (app.py 540-712).
   Two paths: pre-computed retention flags, or a fallback deriving
   retention from raw session timestamps.  Column presence is a
   table-level fact in pandas and is modelled by a RetCols record of
   presence booleans.                                                 -/
/- ------------------------------------------------------------------ -/

/-- One signup row as the retention logic reads it.  created_at is a day
    number (none models NaT); the retained_* fields are the pre-computed
    flag columns. -/
structure RetRow where
  company_id : Int := 0
  created_at : Option Int := none
  days_since_signup : Int := 0
  retained_day1 : Bool := false
  retained_week1 : Bool := false
  retained_week2 : Bool := false
  retained_week3 : Bool := false
  retained_week4 : Bool := false
  retained_week5 : Bool := false
  retained_week6 : Bool := false
  retained_week7 : Bool := false
  retained_week8 : Bool := false
deriving DecidableEq, Repr

/-- Which optional columns the input table carries. -/
structure RetCols where
  days_since_signup : Bool := true
  retained_day1 : Bool := true
  retained_week1 : Bool := true
  retained_week2 : Bool := true
  retained_week3 : Bool := true
  retained_week4 : Bool := true
  retained_week5 : Bool := true
  retained_week6 : Bool := true
  retained_week7 : Bool := true
  retained_week8 : Bool := true
deriving DecidableEq, Repr

/-- Read the i-th retention flag of a row (0 = day 1, k = week k). -/
def get_flag (i : Nat) (r : RetRow) : Bool :=
  match i with
  | 0 => r.retained_day1
  | 1 => r.retained_week1
  | 2 => r.retained_week2
  | 3 => r.retained_week3
  | 4 => r.retained_week4
  | 5 => r.retained_week5
  | 6 => r.retained_week6
  | 7 => r.retained_week7
  | 8 => r.retained_week8
  | _ => false

/-- Is the i-th retention flag column present? -/
def col_present (c : RetCols) (i : Nat) : Bool :=
  match i with
  | 0 => c.retained_day1
  | 1 => c.retained_week1
  | 2 => c.retained_week2
  | 3 => c.retained_week3
  | 4 => c.retained_week4
  | 5 => c.retained_week5
  | 6 => c.retained_week6
  | 7 => c.retained_week7
  | 8 => c.retained_week8
  | _ => false

/-- Gate for the pre-computed path (app.py line 567): retained_day1,
    retained_week1 and days_since_signup must all be present. -/
def has_retention_flags (c : RetCols) : Bool :=
  c.retained_day1 && c.retained_week1 && c.days_since_signup

/-- One ladder period of the pre-computed-flags path: display label, index
    of its flag column, and minimum eligibility age in days. -/
structure FPeriod where
  label : String
  flagIdx : Nat
  min_age : Int
deriving DecidableEq, Repr

/-- The period ladder of the pre-computed-flags path (app.py lines 573-583). -/
def flags_periods : List FPeriod :=
  [⟨"Day 1", 0, 7⟩, ⟨"Week 1", 1, 14⟩, ⟨"Week 2", 2, 21⟩, ⟨"Week 3", 3, 28⟩,
   ⟨"Week 4", 4, 35⟩, ⟨"Week 5", 5, 42⟩, ⟨"Week 6", 6, 49⟩, ⟨"Week 7", 7, 56⟩,
   ⟨"Week 8", 8, 63⟩]

/-- One Retention Record as appended to retention_data. -/
structure REntry where
  period : String
  eligible : Nat
  retained : Nat
  retention_rate : ℚ
deriving DecidableEq, Repr

/-- The entry the pre-computed-flags path produces for one period
    (app.py lines 596-615): skipped when the flag column is absent or when
    no company is old enough; otherwise eligible companies are those with
    days_since_signup at least the minimum age and retained companies the
    eligible ones whose flag is set. -/
def period_entry (cols : RetCols) (rows : List RetRow) (p : FPeriod) : Option REntry :=
  if col_present cols p.flagIdx then
    let eligible := rows.filter (fun r => p.min_age ≤ r.days_since_signup)
    if eligible.length = 0 then none
    else
      let ret := eligible.filter (fun r => get_flag p.flagIdx r)
      some ⟨p.label, eligible.length, ret.length,
            (ret.length : ℚ) / (eligible.length : ℚ) * 100⟩
  else none

/-- The pre-computed-flags path (app.py lines 569-620): a Day 0 baseline over
    the whole population followed by the defined period entries. -/
def retention_from_flags (cols : RetCols) (rows : List RetRow) : List REntry :=
  ⟨"Day 0", rows.length, rows.length, 100⟩ ::
    flags_periods.filterMap (period_entry cols rows)

/-- One user-sessions row as the fallback path reads it (dates as day
    numbers, none models NaT). -/
structure SessRow where
  company_id : Int := 0
  first_session : Option Int := none
  last_session : Option Int := none
  days_active : Int := 0
  total_sessions : Int := 0
deriving DecidableEq, Repr

/-- The fallback ladder (app.py lines 657-667): display label, offset in
    days, minimum eligibility age in days. -/
def fallback_periods : List (String × Int × Int) :=
  [("Day 1", 1, 7), ("Week 1", 7, 14), ("Week 2", 14, 21), ("Week 3", 21, 28),
   ("Week 4", 28, 35), ("Week 5", 35, 42), ("Week 6", 42, 49),
   ("Week 7", 49, 56), ("Week 8", 56, 63)]

/-- The merged rows one signup contributes: one row per matching session row,
    or a single row with null session data when unmatched. -/
def merge_one (sl : List SessRow) (r : RetRow) : List (RetRow × Option SessRow) :=
  match sl.filter (fun s => s.company_id == r.company_id) with
  | [] => [(r, none)]
  | ms => ms.map (fun s => (r, some s))

/-- Left merge of signups with sessions on company_id (app.py lines 641-645):
    a signup matched by k session rows yields k merged rows, an unmatched
    signup one row with null session data. -/
def merge_sessions (rows : List RetRow) (sl : List SessRow) :
    List (RetRow × Option SessRow) :=
  rows.flatMap (merge_one sl)

/-- days_to_last of a merged row (app.py line 650): day difference between
    last session and signup, null when either is null. -/
def days_to_last (m : RetRow × Option SessRow) : Option Int :=
  match m.1.created_at, m.2.bind (fun s => s.last_session) with
  | some a, some b => some (b - a)
  | _, _ => none

/-- days_since_signup of a merged row (app.py line 654). -/
def fallback_age (today : Int) (m : RetRow × Option SessRow) : Option Int :=
  m.1.created_at.map (fun a => today - a)

/-- Comparison against a possibly-null value: pandas comparisons with NaN
    are false, so a null never passes a filter. -/
def opt_ge (o : Option Int) (bound : Int) : Bool :=
  match o with
  | some v => bound ≤ v
  | none => false

/-- The entry the fallback path produces for one period (app.py
    lines 680-700): eligible merged rows are those old enough, retained ones
    those whose last activity is at least the offset after signup. -/
def fallback_entry (today : Int) (merged : List (RetRow × Option SessRow))
    (p : String × Int × Int) : Option REntry :=
  let eligible := merged.filter (fun m => opt_ge (fallback_age today m) p.2.2)
  if eligible.length = 0 then none
  else
    let active := eligible.filter (fun m => opt_ge (days_to_last m) p.2.1)
    some ⟨p.1, eligible.length, active.length,
          (active.length : ℚ) / (eligible.length : ℚ) * 100⟩

/-- The fallback path (app.py lines 622-705). -/
def retention_fallback (today : Int) (rows : List RetRow) (sl : List SessRow) :
    List REntry :=
  let merged := merge_sessions rows sl
  ⟨"Day 0", merged.length, merged.length, 100⟩ ::
    fallback_periods.filterMap (fallback_entry today merged)

/-- calculate_retention_curve (app.py lines 540-712): empty input gives an
    absent result; the pre-computed-flags path is used when its gate columns
    are present; otherwise the fallback needs a non-empty sessions table or
    the result is absent. -/
def calculate_retention_curve (cols : RetCols) (rows : List RetRow)
    (sessions : Option (List SessRow)) (today : Int) : Option (List REntry) :=
  if rows.length = 0 then none
  else if has_retention_flags cols then
    let l := retention_from_flags cols rows
    if l.length = 0 then none else some l
  else
    match sessions with
    | none => none
    | some sl =>
      if sl.length = 0 then none
      else
        let l := retention_fallback today rows sl
        if l.length = 0 then none else some l

/- ------------------------------------------------------------------ -/
/- Funnel/Flow Assigner: the Sankey computation of render_funnel
   (app.py lines 1836-2030).  The filtered analysis table carries the
   dynamic node_type_* flag columns, modelled as a list of column names
   plus one parallel list of integer values per row.                  -/
/- ------------------------------------------------------------------ -/

/-- One filtered analysis row as the funnel reads it. -/
structure FRow where
  company_id : Int
  has_connect : Bool := false
  connect_active : Bool := false
  has_template_usage : Bool := false
  total_nodes_created : Int := 0
  node_flags : List Int := []
deriving DecidableEq, Repr

/-- The filtered table: names of the node_type_* columns (parallel to each
    row's node_flags), whether the total_nodes_created column exists, and
    the rows. -/
structure FTable where
  node_type_names : List String := []
  has_total_nodes : Bool := false
  rows : List FRow := []
deriving DecidableEq, Repr

/-- Column total of one node-type flag column (pandas fillna(0).sum()). -/
def fcol_sum (t : FTable) (j : Nat) : Int :=
  (t.rows.map (fun r => r.node_flags.getD j 0)).sum

/-- Indices of the node_type_* columns other than node_type_other. -/
def base_idxs (t : FTable) : List Nat :=
  (List.range t.node_type_names.length).filter
    (fun j => !(t.node_type_names.getD j "" == "node_type_other"))

/-- Indices of the node_type_other column (at most one in practice). -/
def other_idxs (t : FTable) : List Nat :=
  (List.range t.node_type_names.length).filter
    (fun j => t.node_type_names.getD j "" == "node_type_other")

/-- Stable insertion of a column index into a list sorted by strictly
    descending column total: ties keep their original relative order. -/
def insert_desc (t : FTable) (x : Nat) : List Nat → List Nat
  | [] => [x]
  | y :: ys => if fcol_sum t y < fcol_sum t x then x :: y :: ys
               else y :: insert_desc t x ys

/-- Sort column indices by descending column total (model of
    sort_values(ascending=False) on the per-column sums). -/
def sort_desc (t : FTable) : List Nat → List Nat
  | [] => []
  | x :: xs => insert_desc t x (sort_desc t xs)

/-- node_type_order (app.py lines 1869-1875): the top five non-other columns
    by popularity, followed by node_type_other when present. -/
def node_type_order (t : FTable) : List Nat :=
  (sort_desc t (base_idxs t)).take 5 ++ other_idxs t

/-- One row's values over the ordered node-type columns
    (the row of node_type_matrix). -/
def row_vals (t : FTable) (r : FRow) : List Int :=
  (node_type_order t).map (fun j => r.node_flags.getD j 0)

/-- created_node_flag before the fallback (app.py line 1878): row sum of the
    selected node-type columns positive; all-false when there are no
    node_type_* columns (line 1866). -/
def flag_created (t : FTable) (r : FRow) : Bool :=
  if t.node_type_names.length = 0 then false else 0 < (row_vals t r).sum

/-- Index of the first maximum of a list (model of numpy argmax; 0 on an
    empty list, which the code never hits because the order is non-empty
    whenever node-type columns exist). -/
def argmax_idx : List Int → Nat
  | [] => 0
  | [_] => 0
  | x :: y :: rest =>
    let k := argmax_idx (y :: rest)
    if x < (y :: rest).getD k 0 then k + 1 else 0

/-- Exclusive column-3 assignment (app.py lines 1880-1885): a company that
    created a node is assigned the first matching flag in popularity order,
    as the argmax over its row of node_type_matrix; other companies get no
    column-3 bucket.  The result indexes into node_type_order. -/
def node_type_assignment (t : FTable) (r : FRow) : Option Nat :=
  if flag_created t r then some (argmax_idx (row_vals t r)) else none

/-- Volume of one column-3 bucket (value_counts of node_type_group). -/
def node_bucket_count (t : FTable) (k : Nat) : Nat :=
  t.rows.countP (fun r => node_type_assignment t r == some k)

/-- Sum of all column-3 bucket volumes. -/
def col3_total (t : FTable) : Nat :=
  ((List.range (node_type_order t).length).map (node_bucket_count t)).sum

/-- Fallback gate (app.py line 1889): no company has a node-type flag set
    and the total_nodes_created column exists. -/
def fallback_active (t : FTable) : Bool :=
  (t.rows.countP (flag_created t) == 0) && t.has_total_nodes

/-- Final created_node flag of column 2, after the fallback
    (app.py lines 1888-1890). -/
def created_node (t : FTable) (r : FRow) : Bool :=
  if fallback_active t then 0 < r.total_nodes_created else flag_created t r

/-- Column-2 created-node volume (app.py line 1892). -/
def col2_created_count (t : FTable) : Nat := t.rows.countP (created_node t)

/-- Engagement rows restricted to companies of the filtered table
    (app.py line 1912 / 1953). -/
def eng_filtered (t : FTable) (el : List EngRow) : List EngRow :=
  el.filter (fun e => t.rows.any (fun r => r.company_id == e.company_id))

/-- _ran_workflow (app.py lines 1910-1914, 1936): the company appears in the
    engagement table. -/
def ran_workflow (t : FTable) (eng : Option (List EngRow)) (r : FRow) : Bool :=
  match eng with
  | some el =>
    if 0 < el.length then
      (eng_filtered t el).any (fun e => e.company_id == r.company_id)
    else false
  | none => false

/-- _connect_trial (app.py lines 1918-1919, 1937): the company id belongs to
    some filtered row with has_connect set. -/
def connect_trial (t : FTable) (r : FRow) : Bool :=
  (t.rows.filter (fun x => x.has_connect)).any (fun x => x.company_id == r.company_id)

/-- _col4_engaged (app.py line 1943). -/
def col4_engaged (t : FTable) (eng : Option (List EngRow)) (r : FRow) : Bool :=
  ran_workflow t eng r || connect_trial t r

/-- _production (app.py lines 1949-1960): the company has an engagement row
    with positive production executions. -/
def production_flag (t : FTable) (eng : Option (List EngRow)) (r : FRow) : Bool :=
  match eng with
  | some el =>
    if 0 < el.length then
      ((eng_filtered t el).filter (fun e => 0 < e.prod_executions)).any
        (fun e => e.company_id == r.company_id)
    else false
  | none => false

/-- _paid_connect (app.py line 1962). -/
def paid_connect (r : FRow) : Bool := r.connect_active

/-- A company of the No Further Actions terminal bucket (app.py lines
    1979-1984, 2019): it created no node and had no column-4 engagement. -/
def no_further (t : FTable) (eng : Option (List EngRow)) (r : FRow) : Bool :=
  !(created_node t r) && !(col4_engaged t eng r)

/-- The residual Dropped Off terminal predicate: none of the other three. -/
def dropped_off (t : FTable) (eng : Option (List EngRow)) (r : FRow) : Bool :=
  !(production_flag t eng r) && !(paid_connect r) && !(no_further t eng r)

/-- Column-6 volume of Live in Production (app.py line 2017). -/
def final_production (t : FTable) (eng : Option (List EngRow)) : Nat :=
  t.rows.countP (production_flag t eng)

/-- Column-6 volume of Paid Connect (app.py line 2018). -/
def final_paid (t : FTable) : Nat := t.rows.countP paid_connect

/-- Column-6 volume of No Further Actions (app.py lines 1984, 2019). -/
def final_no_further (t : FTable) (eng : Option (List EngRow)) : Nat :=
  t.rows.countP (no_further t eng)

/-- Column-6 volume of Dropped Off, computed as the remainder
    (app.py line 2020). -/
def final_dropped (t : FTable) (eng : Option (List EngRow)) : Int :=
  (t.rows.length : Int) - final_production t eng - final_paid t
    - final_no_further t eng

/- ------------------------------------------------------------------ -/
/- Shared helper lemmas                                               -/
/- ------------------------------------------------------------------ -/

/-- Filtering twice with the same predicate is filtering once. -/
theorem filter_twice {α : Type} (p : α → Bool) (l : List α) :
    (l.filter p).filter p = l.filter p := by
  rw [List.filter_filter]
  exact List.filter_congr (fun a _ => by cases p a <;> rfl)

/-- Length of a padded-or-truncated row is the header length. -/
theorem pad_or_truncate_length (n : Nat) (row : List String) :
    (pad_or_truncate n row).length = n := by
  unfold pad_or_truncate
  split_ifs with h1 h2
  · simp only [List.length_append, List.length_replicate]
    omega
  · simp only [List.length_take]
    omega
  · omega

/- ------------------------------------------------------------------ -/
/- C6 - minimum eligibility ages of the retention ladder              -/
/- ------------------------------------------------------------------ -/

/-- C6 counterexample: the claim says every ladder offset X uses minimum
    eligibility age X + 6, but the 7-day offset (Week 1) uses age 14,
    not 7 + 6 = 13. -/
theorem C6_counterexample :
    ("Week 1", (7 : Int), (14 : Int)) ∈ fallback_periods ∧ (14 : Int) ≠ 7 + 6 := by
  decide

/-- C6 (amended): the ladder offsets are 1, 7, 14, 21, 28, 35, 42, 49, 56
    days; the minimum eligibility age is offset + 6 for the 1-day offset and
    offset + 7 for every weekly offset; the pre-computed-flags path uses the
    same minimum ages for the same period labels. -/
theorem C6_min_age_rule :
    fallback_periods.map (fun p => p.2.1) = [1, 7, 14, 21, 28, 35, 42, 49, 56] ∧
    (fallback_periods.all
      (fun p => p.2.2 == if p.2.1 == 1 then p.2.1 + 6 else p.2.1 + 7)) = true ∧
    flags_periods.map (fun p => (p.label, p.min_age)) =
      fallback_periods.map (fun p => (p.1, p.2.2)) := by
  decide

/- ------------------------------------------------------------------ -/
/- C9 - subscriptions row padding/truncation                          -/
/- ------------------------------------------------------------------ -/

/-- C9 counterexample: the claim says every data row whose field count
    differs from the header's is kept (padded when shorter); but a row with
    fewer than 5 fields is dropped entirely, so with a 6-field header the
    4-field row below produces no output row at all. -/
theorem C9_counterexample :
    parse_subscription_rows ["a", "b", "c", "d", "e", "f"] [["1", "2", "3", "4"]] = [] ∧
    (["1", "2", "3", "4"] : List String).length ≠
      (["a", "b", "c", "d", "e", "f"] : List String).length := by
  decide

/-- C9 (amended): when loading the subscriptions table, exactly the data rows
    with at least 5 fields are kept, each padded with empty values when
    shorter than the header and truncated when longer, so every kept row has
    the header's field count; rows with fewer than 5 fields are dropped
    rather than padded. -/
theorem C9_pad_truncate (headers : List String) (raws : List (List String)) :
    parse_subscription_rows headers raws =
      (raws.filter (fun row => 5 ≤ row.length)).map (pad_or_truncate headers.length) ∧
    ∀ row ∈ parse_subscription_rows headers raws, row.length = headers.length := by
  constructor
  · induction raws with
    | nil => rfl
    | cons row rest ih =>
      unfold parse_subscription_rows at ih ⊢
      rw [List.filterMap_cons]
      by_cases h : 5 ≤ row.length
      · rw [if_pos h,
          @List.filter_cons_of_pos (List String) (fun r => decide (5 ≤ r.length))
            row rest (by simpa using h), List.map_cons]
        exact congrArg (List.cons (pad_or_truncate headers.length row)) ih
      · rw [if_neg h,
          @List.filter_cons_of_neg (List String) (fun r => decide (5 ≤ r.length))
            row rest (by simpa using h)]
        exact ih
  · intro row hrow
    unfold parse_subscription_rows at hrow
    rw [List.mem_filterMap] at hrow
    obtain ⟨raw, _, hraw⟩ := hrow
    by_cases h : 5 ≤ raw.length
    · rw [if_pos h, Option.some_inj] at hraw
      rw [← hraw, pad_or_truncate_length]
    · rw [if_neg h] at hraw
      exact absurd hraw (by simp)

/-- C9 witness: a 5-field row under a 6-field header is kept and padded with
    one empty field, giving it the header's length. -/
theorem C9_witness :
    parse_subscription_rows ["a", "b", "c", "d", "e", "f"]
        [["1", "2", "3", "4", "5"]] = [["1", "2", "3", "4", "5", ""]] ∧
    (["1", "2", "3", "4", "5", ""] : List String).length =
      (["a", "b", "c", "d", "e", "f"] : List String).length := by
  refine ⟨by decide, ?_⟩
  exact (C9_pad_truncate ["a", "b", "c", "d", "e", "f"]
    [["1", "2", "3", "4", "5"]]).2 ["1", "2", "3", "4", "5", ""] (by decide)

/- ------------------------------------------------------------------ -/
/- C7 - idempotence of the Exclusion Filter                           -/
/- ------------------------------------------------------------------ -/

/-- C7: the Exclusion Filter is idempotent on the raw-signups path and on the
    pre-joined (combined table) path, and every row surviving the pre-joined
    path passed the same three rules (internal email domain, internal slug
    substring, deny-listed trimmed lower-cased name). -/
theorem C7_exclusion_idempotent (ex : List String) (rows : List SigRow) :
    filter_signups ex (filter_signups ex rows) = filter_signups ex rows ∧
    filter_analysis ex (filter_analysis ex rows) = filter_analysis ex rows ∧
    ∀ r ∈ filter_analysis ex rows,
      email_excluded r = false ∧ slug_excluded r = false ∧
        (0 < ex.length → name_excluded ex r = false) := by
  refine ⟨?_, ?_, ?_⟩
  · unfold filter_signups
    by_cases h : 0 < ex.length
    · simp only [if_pos h, List.filter_filter]
      exact List.filter_congr (fun a _ => by
        cases email_excluded a <;> cases slug_excluded a <;>
          cases name_excluded ex a <;> rfl)
    · simp only [if_neg h, List.filter_filter]
      exact List.filter_congr (fun a _ => by
        cases email_excluded a <;> cases slug_excluded a <;> rfl)
  · unfold filter_analysis
    by_cases h : 0 < ex.length
    · simp only [if_pos h, List.filter_filter]
      exact List.filter_congr (fun a _ => by
        cases email_excluded a <;> cases impersonate_excluded a <;>
          cases slug_excluded a <;> cases name_excluded ex a <;> rfl)
    · simp only [if_neg h, List.filter_filter]
      exact List.filter_congr (fun a _ => by
        cases email_excluded a <;> cases impersonate_excluded a <;>
          cases slug_excluded a <;> rfl)
  · intro r hr
    unfold filter_analysis at hr
    by_cases h : 0 < ex.length
    · rw [if_pos h] at hr
      simp only [List.mem_filter, Bool.not_eq_true', Bool.not_eq_eq_eq_not] at hr
      exact ⟨hr.1.1.1.2, hr.1.2, fun _ => hr.2⟩
    · rw [if_neg h] at hr
      simp only [List.mem_filter, Bool.not_eq_true', Bool.not_eq_eq_eq_not] at hr
      exact ⟨hr.1.1.2, hr.2, fun hx => absurd hx h⟩

/-- C7 witness: on a concrete two-row table with a deny-list, both paths are
    idempotent, and a surviving row of the pre-joined path satisfies none of
    the three rules. -/
theorem C7_witness :
    filter_signups ["acme test co"]
        (filter_signups ["acme test co"]
          [⟨1, "a@b.com", "rocket", "Rocket"⟩, ⟨2, "x@jelou.ai", "t", "T"⟩]) =
      filter_signups ["acme test co"]
        [⟨1, "a@b.com", "rocket", "Rocket"⟩, ⟨2, "x@jelou.ai", "t", "T"⟩] ∧
    email_excluded ⟨1, "a@b.com", "rocket", "Rocket"⟩ = false := by
  refine ⟨(C7_exclusion_idempotent ["acme test co"] _).1, ?_⟩
  exact ((C7_exclusion_idempotent ["acme test co"]
    [⟨1, "a@b.com", "rocket", "Rocket"⟩, ⟨2, "x@jelou.ai", "t", "T"⟩]).2.2
      ⟨1, "a@b.com", "rocket", "Rocket"⟩ (by decide)).1

/- ------------------------------------------------------------------ -/
/- C10 - the impersonate rule exists only on the pre-joined path      -/
/- ------------------------------------------------------------------ -/

/-- C10: on the pre-joined (combined table) path every surviving row's email
    is free of the substring impersonate, while the raw-signups path keeps
    any row that merely passes the three documented rules - so an
    impersonate-email row survives the signups path but not the analysis
    path. -/
theorem C10_impersonate_rule (ex : List String) (rows : List SigRow) :
    (∀ r ∈ filter_analysis ex rows, impersonate_excluded r = false) ∧
    (∀ r ∈ rows, email_excluded r = false → slug_excluded r = false →
      (0 < ex.length → name_excluded ex r = false) → r ∈ filter_signups ex rows) := by
  constructor
  · intro r hr
    unfold filter_analysis at hr
    by_cases h : 0 < ex.length
    · rw [if_pos h] at hr
      simp only [List.mem_filter, Bool.not_eq_true', Bool.not_eq_eq_eq_not] at hr
      exact hr.1.1.2
    · rw [if_neg h] at hr
      simp only [List.mem_filter, Bool.not_eq_true', Bool.not_eq_eq_eq_not] at hr
      exact hr.1.2
  · intro r hr hemail hslug hname
    unfold filter_signups
    by_cases h : 0 < ex.length
    · rw [if_pos h]
      simp only [List.mem_filter]
      exact ⟨⟨⟨hr, by simp [hemail]⟩, by simp [hslug]⟩, by simp [hname h]⟩
    · rw [if_neg h]
      simp only [List.mem_filter]
      exact ⟨⟨hr, by simp [hemail]⟩, by simp [hslug]⟩

/-- C10 witness: a concrete row whose email contains impersonate but matches
    no documented rule is kept by the raw-signups path and removed by the
    pre-joined path, so the two paths yield different row sets. -/
theorem C10_witness :
    (⟨1, "eve+impersonate@example.com", "acme", "Acme"⟩ : SigRow) ∈
      filter_signups [] [⟨1, "eve+impersonate@example.com", "acme", "Acme"⟩] ∧
    filter_analysis [] [⟨1, "eve+impersonate@example.com", "acme", "Acme"⟩] = [] := by
  refine ⟨?_, by decide⟩
  exact (C10_impersonate_rule [] [⟨1, "eve+impersonate@example.com", "acme", "Acme"⟩]).2
    ⟨1, "eve+impersonate@example.com", "acme", "Acme"⟩ (by decide) (by decide) (by decide)
    (fun hx => absurd hx (by decide))

/- ------------------------------------------------------------------ -/
/- C5 - young companies excluded from numerator and denominator       -/
/- ------------------------------------------------------------------ -/

/-- C5: for any ladder period with minimum eligibility age M, a company whose
    days_since_signup is below M contributes to neither the eligible count
    nor the retained count of that period: inserting such a row anywhere in
    the table leaves the period's Retention Record unchanged. -/
theorem C5_young_excluded (cols : RetCols) (p : FPeriod) (_hp : p ∈ flags_periods)
    (pre post : List RetRow) (r : RetRow)
    (hage : r.days_since_signup < p.min_age) :
    period_entry cols (pre ++ r :: post) p = period_entry cols (pre ++ post) p := by
  have hfilter :
      (pre ++ r :: post).filter (fun x => decide (p.min_age ≤ x.days_since_signup)) =
        (pre ++ post).filter (fun x => decide (p.min_age ≤ x.days_since_signup)) := by
    rw [List.filter_append, List.filter_append,
      List.filter_cons_of_neg (by simp only [decide_eq_true_eq]; omega)]
  simp only [period_entry, hfilter]

/-- C5 witness: a 20-day-old company with retained_week1 set is counted as
    eligible and retained for Week 1 (minimum age 14) but its presence leaves
    the Week 2 record (minimum age 21) untouched. -/
theorem C5_witness :
    period_entry {} [{days_since_signup := 20, retained_week1 := true}]
        ⟨"Week 2", 2, 21⟩ =
      period_entry {} [] ⟨"Week 2", 2, 21⟩ ∧
    (period_entry {} [{days_since_signup := 20, retained_week1 := true}]
        ⟨"Week 1", 1, 14⟩).map (fun e => (e.eligible, e.retained)) = some (1, 1) := by
  refine ⟨?_, by decide⟩
  exact C5_young_excluded {} ⟨"Week 2", 2, 21⟩ (by decide) [] []
    {days_since_signup := 20, retained_week1 := true} (by decide)

/- ------------------------------------------------------------------ -/
/- C8 - explicit insufficient-data signalling                         -/
/- ------------------------------------------------------------------ -/

/-- Unpack a defined period entry: its label is the period's, its eligible
    count is the count of old-enough rows, and that count is positive. -/
theorem period_entry_some {cols : RetCols} {rows : List RetRow} {p : FPeriod}
    {e : REntry} (h : period_entry cols rows p = some e) :
    e.period = p.label ∧
    e.eligible =
      (rows.filter (fun x => decide (p.min_age ≤ x.days_since_signup))).length ∧
    0 < e.eligible := by
  simp only [period_entry] at h
  split_ifs at h with h1 h2
  rw [Option.some_inj] at h
  subst h
  exact ⟨rfl, rfl, Nat.pos_of_ne_zero h2⟩

/-- Membership in the flags-path result: the Day 0 baseline or a defined
    period entry. -/
theorem mem_retention_from_flags {cols : RetCols} {rows : List RetRow} {e : REntry}
    (he : e ∈ retention_from_flags cols rows) :
    e = ⟨"Day 0", rows.length, rows.length, 100⟩ ∨
      ∃ p ∈ flags_periods, period_entry cols rows p = some e := by
  unfold retention_from_flags at he
  rcases List.mem_cons.mp he with h | h
  · exact Or.inl h
  · right
    obtain ⟨p, hp, hpe⟩ := List.mem_filterMap.mp h
    exact ⟨p, hp, hpe⟩

/-- Unpack a defined fallback entry: label and positive eligible count. -/
theorem fallback_entry_some {today : Int} {merged : List (RetRow × Option SessRow)}
    {p : String × Int × Int} {e : REntry} (h : fallback_entry today merged p = some e) :
    e.period = p.1 ∧ 0 < e.eligible := by
  simp only [fallback_entry] at h
  split_ifs at h with h1
  rw [Option.some_inj] at h
  subst h
  exact ⟨rfl, Nat.pos_of_ne_zero h1⟩

/-- Membership in the fallback-path result. -/
theorem mem_retention_fallback {today : Int} {rows : List RetRow} {sl : List SessRow}
    {e : REntry} (he : e ∈ retention_fallback today rows sl) :
    e = ⟨"Day 0", (merge_sessions rows sl).length, (merge_sessions rows sl).length, 100⟩ ∨
      ∃ p ∈ fallback_periods, fallback_entry today (merge_sessions rows sl) p = some e := by
  unfold retention_fallback at he
  rcases List.mem_cons.mp he with h | h
  · exact Or.inl h
  · right
    obtain ⟨p, hp, hpe⟩ := List.mem_filterMap.mp h
    exact ⟨p, hp, hpe⟩

/-- The left merge with sessions produces at least one row per signup. -/
theorem merge_sessions_length_pos {rows : List RetRow} (sl : List SessRow)
    (h : rows ≠ []) : 0 < (merge_sessions rows sl).length := by
  cases rows with
  | nil => exact absurd rfl h
  | cons r rest =>
    unfold merge_sessions
    rw [List.flatMap_cons, List.length_append]
    have hone : merge_one sl r ≠ [] := by
      unfold merge_one
      split
      · simp
      · simp_all
    have := List.length_pos.mpr hone
    omega

/-- No two ladder periods share a label, and none is labelled Day 0. -/
theorem flags_periods_labels :
    (∀ p ∈ flags_periods, p.label ≠ "Day 0") ∧
    ∀ p ∈ flags_periods, ∀ q ∈ flags_periods, p.label = q.label → p = q := by
  decide

/-- When the flag columns are present and the table is non-empty, the result
    is exactly the flags-path sequence. -/
theorem crc_flags_path (cols : RetCols) (rows : List RetRow)
    (sessions : Option (List SessRow)) (today : Int) (h0 : rows.length ≠ 0)
    (hf : has_retention_flags cols = true) :
    calculate_retention_curve cols rows sessions today =
      some (retention_from_flags cols rows) := by
  simp [calculate_retention_curve, h0, hf, retention_from_flags]

/-- When the flag columns are missing, the result is driven by the sessions
    table: absent or empty sessions give an absent result, otherwise the
    fallback-path sequence. -/
theorem crc_fallback_path (cols : RetCols) (rows : List RetRow) (today : Int)
    (h0 : rows.length ≠ 0) (hf : has_retention_flags cols = false) :
    calculate_retention_curve cols rows none today = none ∧
    ∀ sl : List SessRow,
      calculate_retention_curve cols rows (some sl) today =
        if sl.length = 0 then none else some (retention_fallback today rows sl) := by
  constructor
  · simp [calculate_retention_curve, h0, hf]
  · intro sl
    by_cases hsl : sl.length = 0
    · simp [calculate_retention_curve, h0, hf, hsl]
    · simp [calculate_retention_curve, h0, hf, hsl, retention_fallback]

/-- C8: the Retention Calculator signals insufficient data explicitly: empty
    input gives an absent result; when the pre-computed flag columns are
    missing and no session data exists the result is absent; every entry of a
    produced result has a positive eligible count; and a ladder period with
    zero eligible companies is omitted from the result entirely. -/
theorem C8_insufficient_data (cols : RetCols) (rows : List RetRow)
    (sessions : Option (List SessRow)) (today : Int) :
    calculate_retention_curve cols [] sessions today = none ∧
    (has_retention_flags cols = false → (sessions = none ∨ sessions = some []) →
      calculate_retention_curve cols rows sessions today = none) ∧
    (∀ l, calculate_retention_curve cols rows sessions today = some l →
      ∀ e ∈ l, 0 < e.eligible) ∧
    (∀ p ∈ flags_periods, has_retention_flags cols = true →
      (rows.filter (fun x => decide (p.min_age ≤ x.days_since_signup))).length = 0 →
      ∀ l, calculate_retention_curve cols rows sessions today = some l →
        ∀ e ∈ l, e.period ≠ p.label) := by
  refine ⟨rfl, ?_, ?_, ?_⟩
  · intro hf hs
    unfold calculate_retention_curve
    rcases hs with rfl | rfl <;> simp [hf]
  · intro l hl e he
    by_cases h0 : rows.length = 0
    · rw [List.length_eq_zero] at h0
      subst h0
      exact absurd hl (by simp [calculate_retention_curve])
    by_cases hf : has_retention_flags cols = true
    · rw [crc_flags_path cols rows sessions today h0 hf, Option.some_inj] at hl
      subst hl
      rcases mem_retention_from_flags he with h | ⟨p, _, hpe⟩
      · subst h
        simpa [Nat.pos_iff_ne_zero] using h0
      · exact (period_entry_some hpe).2.2
    · rw [Bool.not_eq_true] at hf
      cases sessions with
      | none => exact absurd hl (by simp [(crc_fallback_path cols rows today h0 hf).1])
      | some sl =>
        rw [(crc_fallback_path cols rows today h0 hf).2 sl] at hl
        by_cases hsl : sl.length = 0
        · rw [if_pos hsl] at hl
          exact absurd hl (by simp)
        · rw [if_neg hsl, Option.some_inj] at hl
          subst hl
          rcases mem_retention_fallback he with h | ⟨p, _, hpe⟩
          · subst h
            simpa using merge_sessions_length_pos sl
              (fun hnil => h0 (by simp [hnil]))
          · exact (fallback_entry_some hpe).2
  · intro p hp hf hzero l hl e he
    by_cases h0 : rows.length = 0
    · rw [List.length_eq_zero] at h0
      subst h0
      exact absurd hl (by simp [calculate_retention_curve])
    rw [crc_flags_path cols rows sessions today h0 hf, Option.some_inj] at hl
    subst hl
    rcases mem_retention_from_flags he with h | ⟨q, hq, hqe⟩
    · subst h
      exact fun hper => flags_periods_labels.1 p hp hper.symm
    · intro hper
      obtain ⟨hlab, helig, hpos⟩ := period_entry_some hqe
      have : q = p := flags_periods_labels.2 q hq p hp (by rw [← hlab, hper])
      subst this
      rw [helig, hzero] at hpos
      exact absurd hpos (by omega)

/-- C8 witness: an empty table gives an absent result; a table without the
    flag columns and with no session data gives an absent result; and for a
    single 3-day-old company (too young for every period) the result holds
    only the Day 0 baseline - the Day 1 period, with zero eligible companies,
    is omitted. -/
theorem C8_witness :
    calculate_retention_curve {} [] none 0 = none ∧
    calculate_retention_curve
      ⟨false, false, false, false, false, false, false, false, false, false⟩
      [{days_since_signup := 3}] none 0 = none ∧
    ∀ e ∈ [(⟨"Day 0", 1, 1, 100⟩ : REntry)], e.period ≠ "Day 1" := by
  refine ⟨(C8_insufficient_data {} [] none 0).1, ?_, ?_⟩
  · exact (C8_insufficient_data
      ⟨false, false, false, false, false, false, false, false, false, false⟩
      [{days_since_signup := 3}] none 0).2.1 rfl (Or.inl rfl)
  · exact (C8_insufficient_data {} [{days_since_signup := 3}] none 0).2.2.2
      ⟨"Day 1", 0, 7⟩ (by decide) rfl (by decide)
      [⟨"Day 0", 1, 1, 100⟩] (by rfl)

/- ------------------------------------------------------------------ -/
/- Stage lemmas for the Feature Join Engine                           -/
/- ------------------------------------------------------------------ -/

/-- Any projection untouched by the subscription stage is preserved. -/
theorem subs_stage_mem {γ : Type} (f : ARow → γ)
    (hf1 : ∀ sl r, f (subs_apply sl r) = f r) (hf2 : ∀ r, f (subs_zero r) = f r)
    (subs : Option (List SubRow)) (l : List ARow) (r : ARow)
    (hr : r ∈ subs_stage subs l) : ∃ r0 ∈ l, f r = f r0 := by
  cases subs with
  | none =>
    simp only [subs_stage] at hr
    obtain ⟨r0, hr0, rfl⟩ := List.mem_map.mp hr
    exact ⟨r0, hr0, hf2 r0⟩
  | some sl =>
    simp only [subs_stage] at hr
    by_cases h : 0 < sl.length
    · rw [if_pos h] at hr
      obtain ⟨r0, hr0, rfl⟩ := List.mem_map.mp hr
      exact ⟨r0, hr0, hf1 sl r0⟩
    · rw [if_neg h] at hr
      obtain ⟨r0, hr0, rfl⟩ := List.mem_map.mp hr
      exact ⟨r0, hr0, hf2 r0⟩

/-- Any projection untouched by the bot stage is preserved. -/
theorem bots_stage_mem {γ : Type} (f : ARow → γ)
    (hf1 : ∀ bl r, f (bots_apply bl r) = f r) (hf2 : ∀ r, f (bots_zero r) = f r)
    (bots : Option (List BotRow)) (l : List ARow) (r : ARow)
    (hr : r ∈ bots_stage bots l) : ∃ r0 ∈ l, f r = f r0 := by
  cases bots with
  | none =>
    simp only [bots_stage] at hr
    obtain ⟨r0, hr0, rfl⟩ := List.mem_map.mp hr
    exact ⟨r0, hr0, hf2 r0⟩
  | some bl =>
    simp only [bots_stage] at hr
    by_cases h : 0 < bl.length
    · rw [if_pos h] at hr
      obtain ⟨r0, hr0, rfl⟩ := List.mem_map.mp hr
      exact ⟨r0, hr0, hf1 bl r0⟩
    · rw [if_neg h] at hr
      obtain ⟨r0, hr0, rfl⟩ := List.mem_map.mp hr
      exact ⟨r0, hr0, hf2 r0⟩

/-- Any projection untouched by the wallet stage is preserved. -/
theorem wallet_stage_mem {γ : Type} (f : ARow → γ)
    (hf1 : ∀ wl r, f (wallet_apply wl r) = f r) (hf2 : ∀ r, f (wallet_zero r) = f r)
    (wallet : Option (List WalletRow)) (l : List ARow) (r : ARow)
    (hr : r ∈ wallet_stage wallet l) : ∃ r0 ∈ l, f r = f r0 := by
  cases wallet with
  | none =>
    simp only [wallet_stage] at hr
    obtain ⟨r0, hr0, rfl⟩ := List.mem_map.mp hr
    exact ⟨r0, hr0, hf2 r0⟩
  | some wl =>
    simp only [wallet_stage] at hr
    by_cases h : 0 < wl.length
    · rw [if_pos h] at hr
      obtain ⟨r0, hr0, rfl⟩ := List.mem_map.mp hr
      exact ⟨r0, hr0, hf1 wl r0⟩
    · rw [if_neg h] at hr
      obtain ⟨r0, hr0, rfl⟩ := List.mem_map.mp hr
      exact ⟨r0, hr0, hf2 r0⟩

/-- Any projection untouched by the invoice stage is preserved. -/
theorem invoices_stage_mem {γ : Type} (f : ARow → γ)
    (hf1 : ∀ il r, f (invoices_apply il r) = f r) (hf2 : ∀ r, f (invoices_zero r) = f r)
    (invoices : Option (List InvoiceRow)) (l : List ARow) (r : ARow)
    (hr : r ∈ invoices_stage invoices l) : ∃ r0 ∈ l, f r = f r0 := by
  cases invoices with
  | none =>
    simp only [invoices_stage] at hr
    obtain ⟨r0, hr0, rfl⟩ := List.mem_map.mp hr
    exact ⟨r0, hr0, hf2 r0⟩
  | some il =>
    simp only [invoices_stage] at hr
    by_cases h : 0 < il.length
    · rw [if_pos h] at hr
      obtain ⟨r0, hr0, rfl⟩ := List.mem_map.mp hr
      exact ⟨r0, hr0, hf1 il r0⟩
    · rw [if_neg h] at hr
      obtain ⟨r0, hr0, rfl⟩ := List.mem_map.mp hr
      exact ⟨r0, hr0, hf2 r0⟩

/-- Any projection untouched by the template stage is preserved. -/
theorem templates_stage_mem {γ : Type} (f : ARow → γ)
    (hf1 : ∀ tl r, f (templates_apply tl r) = f r) (hf2 : ∀ r, f (templates_zero r) = f r)
    (templates : Option (List TemplateRow)) (l : List ARow) (r : ARow)
    (hr : r ∈ templates_stage templates l) : ∃ r0 ∈ l, f r = f r0 := by
  cases templates with
  | none =>
    simp only [templates_stage] at hr
    obtain ⟨r0, hr0, rfl⟩ := List.mem_map.mp hr
    exact ⟨r0, hr0, hf2 r0⟩
  | some tl =>
    simp only [templates_stage] at hr
    by_cases h : 0 < tl.length
    · rw [if_pos h] at hr
      obtain ⟨r0, hr0, rfl⟩ := List.mem_map.mp hr
      exact ⟨r0, hr0, hf1 tl r0⟩
    · rw [if_neg h] at hr
      obtain ⟨r0, hr0, rfl⟩ := List.mem_map.mp hr
      exact ⟨r0, hr0, hf2 r0⟩

/-- Any projection untouched by the engagement stage is preserved. -/
theorem eng_stage_mem {γ : Type} (f : ARow → γ)
    (hf1 : ∀ e r, f (eng_apply e r) = f r) (hf2 : ∀ r, f (eng_zero r) = f r)
    (engagement : Option (List EngRow)) (l : List ARow) (r : ARow)
    (hr : r ∈ eng_stage engagement l) : ∃ r0 ∈ l, f r = f r0 := by
  cases engagement with
  | none =>
    simp only [eng_stage] at hr
    obtain ⟨r0, hr0, rfl⟩ := List.mem_map.mp hr
    exact ⟨r0, hr0, hf2 r0⟩
  | some el =>
    simp only [eng_stage] at hr
    by_cases h : 0 < el.length
    · rw [if_pos h] at hr
      obtain ⟨r0, hr0, hmem⟩ := List.mem_flatMap.mp hr
      refine ⟨r0, hr0, ?_⟩
      revert hmem
      unfold eng_matches
      cases hm : el.filter (fun e => e.company_id == r0.company_id) with
      | nil =>
        intro hmem
        rw [List.mem_singleton] at hmem
        subst hmem
        exact hf2 r0
      | cons e ms =>
        intro hmem
        obtain ⟨x, _, rfl⟩ := List.mem_map.mp hmem
        exact hf1 x r0
    · rw [if_neg h] at hr
      obtain ⟨r0, hr0, rfl⟩ := List.mem_map.mp hr
      exact ⟨r0, hr0, hf2 r0⟩

/-- Any projection untouched by the session-duration stage is preserved. -/
theorem sd_stage_mem {γ : Type} (f : ARow → γ)
    (hf1 : ∀ s r, f (sd_apply s r) = f r) (hf2 : ∀ r, f (sd_zero r) = f r)
    (sessions_duration : Option (List SdRow)) (l : List ARow) (r : ARow)
    (hr : r ∈ sd_stage sessions_duration l) : ∃ r0 ∈ l, f r = f r0 := by
  cases sessions_duration with
  | none =>
    simp only [sd_stage] at hr
    obtain ⟨r0, hr0, rfl⟩ := List.mem_map.mp hr
    exact ⟨r0, hr0, hf2 r0⟩
  | some sl =>
    simp only [sd_stage] at hr
    by_cases h : 0 < sl.length
    · rw [if_pos h] at hr
      obtain ⟨r0, hr0, hmem⟩ := List.mem_flatMap.mp hr
      refine ⟨r0, hr0, ?_⟩
      revert hmem
      unfold sd_matches
      cases hm : sl.filter (fun s => s.company_id == r0.company_id) with
      | nil =>
        intro hmem
        rw [List.mem_singleton] at hmem
        subst hmem
        exact hf2 r0
      | cons s ms =>
        intro hmem
        obtain ⟨x, _, rfl⟩ := List.mem_map.mp hmem
        exact hf1 x r0
    · rw [if_neg h] at hr
      obtain ⟨r0, hr0, rfl⟩ := List.mem_map.mp hr
      exact ⟨r0, hr0, hf2 r0⟩

/-- The engagement merge yields at least one output row per input row, with
    the same company id. -/
theorem eng_matches_exists (el : List EngRow) (r0 : ARow) :
    ∃ r ∈ eng_matches el r0, r.company_id = r0.company_id := by
  unfold eng_matches
  cases hm : el.filter (fun e => e.company_id == r0.company_id) with
  | nil => exact ⟨eng_zero r0, by simp, rfl⟩
  | cons e ms => exact ⟨eng_apply e r0, by simp, rfl⟩

/-- The session-duration merge yields at least one output row per input row,
    with the same company id. -/
theorem sd_matches_exists (sl : List SdRow) (r0 : ARow) :
    ∃ r ∈ sd_matches sl r0, r.company_id = r0.company_id := by
  unfold sd_matches
  cases hm : sl.filter (fun s => s.company_id == r0.company_id) with
  | nil => exact ⟨sd_zero r0, by simp, rfl⟩
  | cons s ms => exact ⟨sd_apply s r0, by simp, rfl⟩

/-- No row is dropped by the subscription stage. -/
theorem subs_stage_exists (subs : Option (List SubRow)) (l : List ARow) (r0 : ARow)
    (h : r0 ∈ l) : ∃ r ∈ subs_stage subs l, r.company_id = r0.company_id := by
  cases subs with
  | none =>
    exact ⟨subs_zero r0, by simpa [subs_stage] using List.mem_map_of_mem subs_zero h, rfl⟩
  | some sl =>
    by_cases h1 : 0 < sl.length
    · exact ⟨subs_apply sl r0,
        by simpa [subs_stage, if_pos h1] using List.mem_map_of_mem (subs_apply sl) h, rfl⟩
    · exact ⟨subs_zero r0,
        by simpa [subs_stage, if_neg h1] using List.mem_map_of_mem subs_zero h, rfl⟩

/-- No row is dropped by the bot stage. -/
theorem bots_stage_exists (bots : Option (List BotRow)) (l : List ARow) (r0 : ARow)
    (h : r0 ∈ l) : ∃ r ∈ bots_stage bots l, r.company_id = r0.company_id := by
  cases bots with
  | none =>
    exact ⟨bots_zero r0, by simpa [bots_stage] using List.mem_map_of_mem bots_zero h, rfl⟩
  | some bl =>
    by_cases h1 : 0 < bl.length
    · exact ⟨bots_apply bl r0,
        by simpa [bots_stage, if_pos h1] using List.mem_map_of_mem (bots_apply bl) h, rfl⟩
    · exact ⟨bots_zero r0,
        by simpa [bots_stage, if_neg h1] using List.mem_map_of_mem bots_zero h, rfl⟩

/-- No row is dropped by the wallet stage. -/
theorem wallet_stage_exists (wallet : Option (List WalletRow)) (l : List ARow) (r0 : ARow)
    (h : r0 ∈ l) : ∃ r ∈ wallet_stage wallet l, r.company_id = r0.company_id := by
  cases wallet with
  | none =>
    exact ⟨wallet_zero r0, by simpa [wallet_stage] using List.mem_map_of_mem wallet_zero h, rfl⟩
  | some wl =>
    by_cases h1 : 0 < wl.length
    · exact ⟨wallet_apply wl r0,
        by simpa [wallet_stage, if_pos h1] using List.mem_map_of_mem (wallet_apply wl) h, rfl⟩
    · exact ⟨wallet_zero r0,
        by simpa [wallet_stage, if_neg h1] using List.mem_map_of_mem wallet_zero h, rfl⟩

/-- No row is dropped by the invoice stage. -/
theorem invoices_stage_exists (invoices : Option (List InvoiceRow)) (l : List ARow)
    (r0 : ARow) (h : r0 ∈ l) :
    ∃ r ∈ invoices_stage invoices l, r.company_id = r0.company_id := by
  cases invoices with
  | none =>
    exact ⟨invoices_zero r0,
      by simpa [invoices_stage] using List.mem_map_of_mem invoices_zero h, rfl⟩
  | some il =>
    by_cases h1 : 0 < il.length
    · exact ⟨invoices_apply il r0,
        by simpa [invoices_stage, if_pos h1] using List.mem_map_of_mem (invoices_apply il) h,
        rfl⟩
    · exact ⟨invoices_zero r0,
        by simpa [invoices_stage, if_neg h1] using List.mem_map_of_mem invoices_zero h, rfl⟩

/-- No row is dropped by the template stage. -/
theorem templates_stage_exists (templates : Option (List TemplateRow)) (l : List ARow)
    (r0 : ARow) (h : r0 ∈ l) :
    ∃ r ∈ templates_stage templates l, r.company_id = r0.company_id := by
  cases templates with
  | none =>
    exact ⟨templates_zero r0,
      by simpa [templates_stage] using List.mem_map_of_mem templates_zero h, rfl⟩
  | some tl =>
    by_cases h1 : 0 < tl.length
    · exact ⟨templates_apply tl r0,
        by simpa [templates_stage, if_pos h1] using
          List.mem_map_of_mem (templates_apply tl) h, rfl⟩
    · exact ⟨templates_zero r0,
        by simpa [templates_stage, if_neg h1] using List.mem_map_of_mem templates_zero h, rfl⟩

/-- No row is dropped by the engagement stage. -/
theorem eng_stage_exists (engagement : Option (List EngRow)) (l : List ARow) (r0 : ARow)
    (h : r0 ∈ l) : ∃ r ∈ eng_stage engagement l, r.company_id = r0.company_id := by
  cases engagement with
  | none =>
    exact ⟨eng_zero r0, by simpa [eng_stage] using List.mem_map_of_mem eng_zero h, rfl⟩
  | some el =>
    by_cases h1 : 0 < el.length
    · obtain ⟨r, hrm, hcid⟩ := eng_matches_exists el r0
      refine ⟨r, ?_, hcid⟩
      simp only [eng_stage, if_pos h1]
      exact List.mem_flatMap.mpr ⟨r0, h, hrm⟩
    · exact ⟨eng_zero r0,
        by simpa [eng_stage, if_neg h1] using List.mem_map_of_mem eng_zero h, rfl⟩

/-- No row is dropped by the session-duration stage. -/
theorem sd_stage_exists (sessions_duration : Option (List SdRow)) (l : List ARow)
    (r0 : ARow) (h : r0 ∈ l) :
    ∃ r ∈ sd_stage sessions_duration l, r.company_id = r0.company_id := by
  cases sessions_duration with
  | none =>
    exact ⟨sd_zero r0, by simpa [sd_stage] using List.mem_map_of_mem sd_zero h, rfl⟩
  | some sl =>
    by_cases h1 : 0 < sl.length
    · obtain ⟨r, hrm, hcid⟩ := sd_matches_exists sl r0
      refine ⟨r, ?_, hcid⟩
      simp only [sd_stage, if_pos h1]
      exact List.mem_flatMap.mpr ⟨r0, h, hrm⟩
    · exact ⟨sd_zero r0,
        by simpa [sd_stage, if_neg h1] using List.mem_map_of_mem sd_zero h, rfl⟩

/-- An absent subscriptions source leaves every subscription flag false. -/
theorem subs_stage_none_mem (l : List ARow) (r : ARow) (hr : r ∈ subs_stage none l) :
    r.has_subscription = false ∧ r.has_active = false ∧
      r.has_brain_studio = false ∧ r.has_connect = false := by
  simp only [subs_stage] at hr
  obtain ⟨r0, _, rfl⟩ := List.mem_map.mp hr
  exact ⟨rfl, rfl, rfl, rfl⟩

/-- An absent bots source leaves the bot columns at their defaults. -/
theorem bots_stage_none_mem (l : List ARow) (r : ARow) (hr : r ∈ bots_stage none l) :
    r.has_bot = false ∧ r.has_prod_channel = false ∧ r.bot_count = 0 := by
  simp only [bots_stage] at hr
  obtain ⟨r0, _, rfl⟩ := List.mem_map.mp hr
  exact ⟨rfl, rfl, rfl⟩

/-- An absent wallet source leaves the wallet flags false. -/
theorem wallet_stage_none_mem (l : List ARow) (r : ARow) (hr : r ∈ wallet_stage none l) :
    r.used_conversations = false ∧ r.exceeded_free_tier = false := by
  simp only [wallet_stage] at hr
  obtain ⟨r0, _, rfl⟩ := List.mem_map.mp hr
  exact ⟨rfl, rfl⟩

/-- An absent invoices source leaves the payment columns at their defaults. -/
theorem invoices_stage_none_mem (l : List ARow) (r : ARow)
    (hr : r ∈ invoices_stage none l) :
    r.actually_paid = false ∧ r.total_paid = 0 := by
  simp only [invoices_stage] at hr
  obtain ⟨r0, _, rfl⟩ := List.mem_map.mp hr
  exact ⟨rfl, rfl⟩

/-- An absent template source leaves the template columns at their defaults. -/
theorem templates_stage_none_mem (l : List ARow) (r : ARow)
    (hr : r ∈ templates_stage none l) :
    r.created_templates = 0 ∧ r.has_template_usage = false := by
  simp only [templates_stage] at hr
  obtain ⟨r0, _, rfl⟩ := List.mem_map.mp hr
  exact ⟨rfl, rfl⟩

/-- An absent engagement source leaves the engagement flags false. -/
theorem eng_stage_none_mem (l : List ARow) (r : ARow) (hr : r ∈ eng_stage none l) :
    r.has_workflow = false ∧ r.has_sandbox = false ∧ r.has_prod_exec = false := by
  simp only [eng_stage] at hr
  obtain ⟨r0, _, rfl⟩ := List.mem_map.mp hr
  exact ⟨rfl, rfl, rfl⟩

/-- An absent session-duration source leaves the session columns at their
    defaults. -/
theorem sd_stage_none_mem (l : List ARow) (r : ARow) (hr : r ∈ sd_stage none l) :
    r.total_time_minutes = 0 ∧ r.avg_session_minutes = 0 ∧ r.session_count_sd = 0 := by
  simp only [sd_stage] at hr
  obtain ⟨r0, _, rfl⟩ := List.mem_map.mp hr
  exact ⟨rfl, rfl, rfl⟩

/-- C2: for any combination of absent source tables, no company row is
    dropped by any feature join - every signup company id still appears in
    the joined table - and every derived boolean/count column whose
    contributing source is absent is false (booleans) or 0 (counts) on every
    output row. -/
theorem C2_defaults_and_no_drop (signups : List Int)
    (subs : Option (List SubRow)) (bots : Option (List BotRow))
    (wallet : Option (List WalletRow)) (invoices : Option (List InvoiceRow))
    (templates : Option (List TemplateRow)) (engagement : Option (List EngRow))
    (sessions_duration : Option (List SdRow)) :
    (∀ c ∈ signups,
      ∃ r ∈ create_corrected_analysis signups subs bots wallet invoices templates
        engagement sessions_duration, r.company_id = c) ∧
    (subs = none →
      ∀ r ∈ create_corrected_analysis signups subs bots wallet invoices templates
        engagement sessions_duration,
        r.has_subscription = false ∧ r.has_active = false ∧
          r.has_brain_studio = false ∧ r.has_connect = false) ∧
    (bots = none →
      ∀ r ∈ create_corrected_analysis signups subs bots wallet invoices templates
        engagement sessions_duration,
        r.has_bot = false ∧ r.has_prod_channel = false ∧ r.bot_count = 0) ∧
    (wallet = none →
      ∀ r ∈ create_corrected_analysis signups subs bots wallet invoices templates
        engagement sessions_duration,
        r.used_conversations = false ∧ r.exceeded_free_tier = false) ∧
    (invoices = none →
      ∀ r ∈ create_corrected_analysis signups subs bots wallet invoices templates
        engagement sessions_duration,
        r.actually_paid = false ∧ r.total_paid = 0) ∧
    (templates = none →
      ∀ r ∈ create_corrected_analysis signups subs bots wallet invoices templates
        engagement sessions_duration,
        r.created_templates = 0 ∧ r.has_template_usage = false) ∧
    (engagement = none →
      ∀ r ∈ create_corrected_analysis signups subs bots wallet invoices templates
        engagement sessions_duration,
        r.has_workflow = false ∧ r.has_sandbox = false ∧ r.has_prod_exec = false) ∧
    (sessions_duration = none →
      ∀ r ∈ create_corrected_analysis signups subs bots wallet invoices templates
        engagement sessions_duration,
        r.total_time_minutes = 0 ∧ r.avg_session_minutes = 0 ∧
          r.session_count_sd = 0) := by
  refine ⟨?_, ?_, ?_, ?_, ?_, ?_, ?_, ?_⟩
  · intro c hc
    have h0 : ({company_id := c} : ARow) ∈ analysis_base signups :=
      List.mem_map_of_mem _ hc
    obtain ⟨r1, hr1, hc1⟩ := subs_stage_exists subs _ _ h0
    obtain ⟨r2, hr2, hc2⟩ := bots_stage_exists bots _ _ hr1
    obtain ⟨r3, hr3, hc3⟩ := wallet_stage_exists wallet _ _ hr2
    obtain ⟨r4, hr4, hc4⟩ := invoices_stage_exists invoices _ _ hr3
    obtain ⟨r5, hr5, hc5⟩ := templates_stage_exists templates _ _ hr4
    obtain ⟨r6, hr6, hc6⟩ := eng_stage_exists engagement _ _ hr5
    obtain ⟨r7, hr7, hc7⟩ := sd_stage_exists sessions_duration _ _ hr6
    exact ⟨r7, hr7, by rw [hc7, hc6, hc5, hc4, hc3, hc2, hc1]⟩
  · rintro rfl r hr
    obtain ⟨r6, hr6, he6⟩ := sd_stage_mem
      (fun x => (x.has_subscription, x.has_active, x.has_brain_studio, x.has_connect))
      (fun _ _ => rfl) (fun _ => rfl) _ _ r hr
    obtain ⟨r5, hr5, he5⟩ := eng_stage_mem
      (fun x => (x.has_subscription, x.has_active, x.has_brain_studio, x.has_connect))
      (fun _ _ => rfl) (fun _ => rfl) _ _ r6 hr6
    obtain ⟨r4, hr4, he4⟩ := templates_stage_mem
      (fun x => (x.has_subscription, x.has_active, x.has_brain_studio, x.has_connect))
      (fun _ _ => rfl) (fun _ => rfl) _ _ r5 hr5
    obtain ⟨r3, hr3, he3⟩ := invoices_stage_mem
      (fun x => (x.has_subscription, x.has_active, x.has_brain_studio, x.has_connect))
      (fun _ _ => rfl) (fun _ => rfl) _ _ r4 hr4
    obtain ⟨r2, hr2, he2⟩ := wallet_stage_mem
      (fun x => (x.has_subscription, x.has_active, x.has_brain_studio, x.has_connect))
      (fun _ _ => rfl) (fun _ => rfl) _ _ r3 hr3
    obtain ⟨r1, hr1, he1⟩ := bots_stage_mem
      (fun x => (x.has_subscription, x.has_active, x.has_brain_studio, x.has_connect))
      (fun _ _ => rfl) (fun _ => rfl) _ _ r2 hr2
    obtain ⟨hd1, hd2, hd3, hd4⟩ := subs_stage_none_mem _ r1 hr1
    have key : (r.has_subscription, r.has_active, r.has_brain_studio, r.has_connect) =
        (false, false, false, false) := by
      rw [he6, he5, he4, he3, he2, he1, hd1, hd2, hd3, hd4]
    rw [Prod.mk.injEq, Prod.mk.injEq, Prod.mk.injEq] at key
    exact key
  · rintro rfl r hr
    obtain ⟨r6, hr6, he6⟩ := sd_stage_mem
      (fun x => (x.has_bot, x.has_prod_channel, x.bot_count))
      (fun _ _ => rfl) (fun _ => rfl) _ _ r hr
    obtain ⟨r5, hr5, he5⟩ := eng_stage_mem
      (fun x => (x.has_bot, x.has_prod_channel, x.bot_count))
      (fun _ _ => rfl) (fun _ => rfl) _ _ r6 hr6
    obtain ⟨r4, hr4, he4⟩ := templates_stage_mem
      (fun x => (x.has_bot, x.has_prod_channel, x.bot_count))
      (fun _ _ => rfl) (fun _ => rfl) _ _ r5 hr5
    obtain ⟨r3, hr3, he3⟩ := invoices_stage_mem
      (fun x => (x.has_bot, x.has_prod_channel, x.bot_count))
      (fun _ _ => rfl) (fun _ => rfl) _ _ r4 hr4
    obtain ⟨r2, hr2, he2⟩ := wallet_stage_mem
      (fun x => (x.has_bot, x.has_prod_channel, x.bot_count))
      (fun _ _ => rfl) (fun _ => rfl) _ _ r3 hr3
    obtain ⟨hd1, hd2, hd3⟩ := bots_stage_none_mem _ r2 hr2
    have key : (r.has_bot, r.has_prod_channel, r.bot_count) = (false, false, (0 : Int)) := by
      rw [he6, he5, he4, he3, he2, hd1, hd2, hd3]
    rw [Prod.mk.injEq, Prod.mk.injEq] at key
    exact key
  · rintro rfl r hr
    obtain ⟨r6, hr6, he6⟩ := sd_stage_mem
      (fun x => (x.used_conversations, x.exceeded_free_tier))
      (fun _ _ => rfl) (fun _ => rfl) _ _ r hr
    obtain ⟨r5, hr5, he5⟩ := eng_stage_mem
      (fun x => (x.used_conversations, x.exceeded_free_tier))
      (fun _ _ => rfl) (fun _ => rfl) _ _ r6 hr6
    obtain ⟨r4, hr4, he4⟩ := templates_stage_mem
      (fun x => (x.used_conversations, x.exceeded_free_tier))
      (fun _ _ => rfl) (fun _ => rfl) _ _ r5 hr5
    obtain ⟨r3, hr3, he3⟩ := invoices_stage_mem
      (fun x => (x.used_conversations, x.exceeded_free_tier))
      (fun _ _ => rfl) (fun _ => rfl) _ _ r4 hr4
    obtain ⟨hd1, hd2⟩ := wallet_stage_none_mem _ r3 hr3
    have key : (r.used_conversations, r.exceeded_free_tier) = (false, false) := by
      rw [he6, he5, he4, he3, hd1, hd2]
    rw [Prod.mk.injEq] at key
    exact key
  · rintro rfl r hr
    obtain ⟨r6, hr6, he6⟩ := sd_stage_mem
      (fun x => (x.actually_paid, x.total_paid))
      (fun _ _ => rfl) (fun _ => rfl) _ _ r hr
    obtain ⟨r5, hr5, he5⟩ := eng_stage_mem
      (fun x => (x.actually_paid, x.total_paid))
      (fun _ _ => rfl) (fun _ => rfl) _ _ r6 hr6
    obtain ⟨r4, hr4, he4⟩ := templates_stage_mem
      (fun x => (x.actually_paid, x.total_paid))
      (fun _ _ => rfl) (fun _ => rfl) _ _ r5 hr5
    obtain ⟨hd1, hd2⟩ := invoices_stage_none_mem _ r4 hr4
    have key : (r.actually_paid, r.total_paid) = (false, (0 : Int)) := by
      rw [he6, he5, he4, hd1, hd2]
    rw [Prod.mk.injEq] at key
    exact key
  · rintro rfl r hr
    obtain ⟨r6, hr6, he6⟩ := sd_stage_mem
      (fun x => (x.created_templates, x.has_template_usage))
      (fun _ _ => rfl) (fun _ => rfl) _ _ r hr
    obtain ⟨r5, hr5, he5⟩ := eng_stage_mem
      (fun x => (x.created_templates, x.has_template_usage))
      (fun _ _ => rfl) (fun _ => rfl) _ _ r6 hr6
    obtain ⟨hd1, hd2⟩ := templates_stage_none_mem _ r5 hr5
    have key : (r.created_templates, r.has_template_usage) = ((0 : Int), false) := by
      rw [he6, he5, hd1, hd2]
    rw [Prod.mk.injEq] at key
    exact key
  · rintro rfl r hr
    obtain ⟨r6, hr6, he6⟩ := sd_stage_mem
      (fun x => (x.has_workflow, x.has_sandbox, x.has_prod_exec))
      (fun _ _ => rfl) (fun _ => rfl) _ _ r hr
    obtain ⟨hd1, hd2, hd3⟩ := eng_stage_none_mem _ r6 hr6
    have key : (r.has_workflow, r.has_sandbox, r.has_prod_exec) =
        (false, false, false) := by
      rw [he6, hd1, hd2, hd3]
    rw [Prod.mk.injEq, Prod.mk.injEq] at key
    exact key
  · rintro rfl r hr
    exact sd_stage_none_mem _ r hr

/-- C2 witness: with every source absent, company 7 still appears in the
    joined table and every row carries default bot and session columns. -/
theorem C2_witness :
    (∃ r ∈ create_corrected_analysis [7] none none none none none none none,
      r.company_id = 7) ∧
    (∀ r ∈ create_corrected_analysis [7] none none none none none none none,
      r.has_bot = false ∧ r.has_prod_channel = false ∧ r.bot_count = 0) ∧
    (∀ r ∈ create_corrected_analysis [7] none none none none none none none,
      r.total_time_minutes = 0 ∧ r.avg_session_minutes = 0 ∧
        r.session_count_sd = 0) := by
  have h := C2_defaults_and_no_drop [7] none none none none none none none
  exact ⟨h.1 7 (by decide), h.2.2.1 rfl, h.2.2.2.2.2.2.2 rfl⟩

/- ------------------------------------------------------------------ -/
/- C1 - the live-in-production flag                                   -/
/- ------------------------------------------------------------------ -/

/-- The bot stage sets has_prod_channel from the bots whose production and
    state indicators are both 1, whether or not the table is empty. -/
theorem bots_stage_prod_value (bl : List BotRow) (l : List ARow) (r : ARow)
    (hr : r ∈ bots_stage (some bl) l) :
    r.has_prod_channel =
      (bl.filter (fun b => b.in_production == 1 && b.state == 1)).any
        (fun b => b.company_id == r.company_id) := by
  simp only [bots_stage] at hr
  by_cases h : 0 < bl.length
  · rw [if_pos h] at hr
    obtain ⟨r0, _, rfl⟩ := List.mem_map.mp hr
    rfl
  · rw [if_neg h] at hr
    obtain ⟨r0, _, rfl⟩ := List.mem_map.mp hr
    have hbl : bl = [] := List.length_eq_zero.mp (by omega)
    subst hbl
    rfl

/-- C1: whenever the bots table is present, a joined row's has_prod_channel
    flag is true exactly when some bot row of that company has the
    production indicator and the state indicator both equal to 1; and with
    the other sources absent, the Production Channel count equals the number
    of signups owning such a bot row, independent of any other bots. -/
theorem C1_has_prod_channel (signups : List Int)
    (subs : Option (List SubRow)) (bl : List BotRow)
    (wallet : Option (List WalletRow)) (invoices : Option (List InvoiceRow))
    (templates : Option (List TemplateRow)) (engagement : Option (List EngRow))
    (sessions_duration : Option (List SdRow)) :
    (∀ r ∈ create_corrected_analysis signups subs (some bl) wallet invoices
        templates engagement sessions_duration,
      (r.has_prod_channel = true ↔
        ∃ b ∈ bl, b.in_production = 1 ∧ b.state = 1 ∧ b.company_id = r.company_id)) ∧
    (create_corrected_analysis signups none (some bl) none none none none
        none).countP (fun r => r.has_prod_channel) =
      (signups.filter (fun c =>
        bl.any (fun b => b.in_production == 1 && b.state == 1 &&
          b.company_id == c))).length := by
  constructor
  · intro r hr
    obtain ⟨r6, hr6, he6⟩ := sd_stage_mem
      (fun x => (x.has_prod_channel, x.company_id))
      (fun _ _ => rfl) (fun _ => rfl) _ _ r hr
    obtain ⟨r5, hr5, he5⟩ := eng_stage_mem
      (fun x => (x.has_prod_channel, x.company_id))
      (fun _ _ => rfl) (fun _ => rfl) _ _ r6 hr6
    obtain ⟨r4, hr4, he4⟩ := templates_stage_mem
      (fun x => (x.has_prod_channel, x.company_id))
      (fun _ _ => rfl) (fun _ => rfl) _ _ r5 hr5
    obtain ⟨r3, hr3, he3⟩ := invoices_stage_mem
      (fun x => (x.has_prod_channel, x.company_id))
      (fun _ _ => rfl) (fun _ => rfl) _ _ r4 hr4
    obtain ⟨r2, hr2, he2⟩ := wallet_stage_mem
      (fun x => (x.has_prod_channel, x.company_id))
      (fun _ _ => rfl) (fun _ => rfl) _ _ r3 hr3
    have hv := bots_stage_prod_value bl _ r2 hr2
    have key : (r.has_prod_channel, r.company_id) = (r2.has_prod_channel, r2.company_id) := by
      rw [he6, he5, he4, he3, he2]
    rw [Prod.mk.injEq] at key
    rw [key.1, key.2, hv]
    simp only [List.any_eq_true, List.mem_filter, Bool.and_eq_true, beq_iff_eq]
    constructor
    · rintro ⟨b, ⟨hb, hprod, hstate⟩, hcid⟩
      exact ⟨b, hb, hprod, hstate, hcid⟩
    · rintro ⟨b, hb, hprod, hstate, hcid⟩
      exact ⟨b, ⟨hb, hprod, hstate⟩, hcid⟩
  · unfold create_corrected_analysis
    simp only [subs_stage, bots_stage, wallet_stage, invoices_stage,
      templates_stage, eng_stage, sd_stage, analysis_base]
    by_cases h : 0 < bl.length
    · rw [if_pos h]
      simp only [List.map_map, List.countP_map]
      rw [List.countP_eq_length_filter]
      apply congrArg
      apply List.filter_congr
      intro c _
      simp only [Function.comp]
      exact List.any_filter
    · rw [if_neg h]
      simp only [List.map_map, List.countP_map]
      rw [List.countP_eq_length_filter]
      apply congrArg
      apply List.filter_congr
      intro c _
      have hbl : bl = [] := List.length_eq_zero.mp (by omega)
      subst hbl
      rfl

/-- C1 witness: Scenario A - ten signups, three companies with a bot row
    having in_production = 1 and state = 1, plus bots satisfying only one of
    the two conditions; the Production Channel count is exactly 3, and the
    joined row of company 1 carries the flag. -/
theorem C1_witness :
    (create_corrected_analysis [1, 2, 3, 4, 5, 6, 7, 8, 9, 10] none
        (some [⟨1, 1, 1⟩, ⟨2, 1, 1⟩, ⟨3, 1, 1⟩, ⟨4, 1, 0⟩, ⟨5, 0, 1⟩, ⟨6, 0, 0⟩])
        none none none none none).countP (fun r => r.has_prod_channel) = 3 ∧
    ∃ r ∈ create_corrected_analysis [1, 2, 3, 4, 5, 6, 7, 8, 9, 10] none
        (some [⟨1, 1, 1⟩, ⟨2, 1, 1⟩, ⟨3, 1, 1⟩, ⟨4, 1, 0⟩, ⟨5, 0, 1⟩, ⟨6, 0, 0⟩])
        none none none none none, r.has_prod_channel = true := by
  constructor
  · rw [(C1_has_prod_channel [1, 2, 3, 4, 5, 6, 7, 8, 9, 10] none
      [⟨1, 1, 1⟩, ⟨2, 1, 1⟩, ⟨3, 1, 1⟩, ⟨4, 1, 0⟩, ⟨5, 0, 1⟩, ⟨6, 0, 0⟩]
      none none none none none).2]
    decide
  · refine ⟨(create_corrected_analysis [1, 2, 3, 4, 5, 6, 7, 8, 9, 10] none
      (some [⟨1, 1, 1⟩, ⟨2, 1, 1⟩, ⟨3, 1, 1⟩, ⟨4, 1, 0⟩, ⟨5, 0, 1⟩, ⟨6, 0, 0⟩])
      none none none none none).headD {company_id := 0}, by decide, ?_⟩
    exact ((C1_has_prod_channel [1, 2, 3, 4, 5, 6, 7, 8, 9, 10] none
      [⟨1, 1, 1⟩, ⟨2, 1, 1⟩, ⟨3, 1, 1⟩, ⟨4, 1, 0⟩, ⟨5, 0, 1⟩, ⟨6, 0, 0⟩]
      none none none none none).1 _ (by decide)).mpr
      ⟨⟨1, 1, 1⟩, by decide, by decide, by decide, by decide⟩

/- ------------------------------------------------------------------ -/
/- C3 - the column-6 terminal buckets                                 -/
/- ------------------------------------------------------------------ -/

/-- Four boolean predicates that hit every row exactly once have counts
    summing to the row count. -/
theorem countP_four_partition {α : Type} (a b c d : α → Bool) (rows : List α)
    (h : ∀ r ∈ rows, (a r).toNat + (b r).toNat + (c r).toNat + (d r).toNat = 1) :
    rows.countP a + rows.countP b + rows.countP c + rows.countP d = rows.length := by
  induction rows with
  | nil => simp
  | cons r rest ih =>
    have hr := h r (List.mem_cons_self r rest)
    have hrest := ih (fun x hx => h x (List.mem_cons_of_mem r hx))
    simp only [List.countP_cons, List.length_cons]
    cases ha : a r <;> cases hb : b r <;> cases hc : c r <;> cases hd : d r <;>
      simp [ha, hb, hc, hd] at hr ⊢ <;> omega

/-- A company with a positive-production engagement row is in the
    ran-workflow set. -/
theorem prod_implies_ran (t : FTable) (eng : Option (List EngRow)) (r : FRow)
    (hp : production_flag t eng r = true) : ran_workflow t eng r = true := by
  cases eng with
  | none => exact absurd hp (by simp [production_flag])
  | some el =>
    simp only [production_flag] at hp
    simp only [ran_workflow]
    by_cases h : 0 < el.length
    · rw [if_pos h] at hp ⊢
      rw [List.any_eq_true] at hp ⊢
      obtain ⟨e, he, hm⟩ := hp
      exact ⟨e, (List.mem_filter.mp he).1, hm⟩
    · rw [if_neg h] at hp
      exact absurd hp (by simp)

/-- A paid-Connect row whose connect_active implies has_connect is in the
    Connect-trial set. -/
theorem paid_implies_trial (t : FTable) (r : FRow) (hmem : r ∈ t.rows)
    (hc : r.connect_active = true → r.has_connect = true)
    (hp : paid_connect r = true) : connect_trial t r = true := by
  unfold connect_trial
  rw [List.any_eq_true]
  exact ⟨r, List.mem_filter.mpr ⟨hmem, hc hp⟩, by simp⟩

/-- C3 counterexample: a single company with an active Connect subscription
    and a positive-production engagement row lands in both the Live in
    Production and the Paid Connect terminal buckets, and the residual
    Dropped Off volume becomes -1 - the four buckets do not partition the
    company set. -/
theorem C3_counterexample :
    (⟨1, true, true, false, 0, []⟩ : FRow) ∈
      (⟨[], false, [⟨1, true, true, false, 0, []⟩]⟩ : FTable).rows ∧
    production_flag ⟨[], false, [⟨1, true, true, false, 0, []⟩]⟩
      (some [⟨1, 0, 5⟩]) ⟨1, true, true, false, 0, []⟩ = true ∧
    paid_connect ⟨1, true, true, false, 0, []⟩ = true ∧
    final_dropped ⟨[], false, [⟨1, true, true, false, 0, []⟩]⟩
      (some [⟨1, 0, 5⟩]) = -1 := by
  decide

/-- C3 (amended): the four column-6 volumes always sum to the total (Dropped
    Off is computed as the remainder); and whenever no filtered company is
    simultaneously in production and paid-Connect, and connect_active implies
    has_connect on every row, the four terminal buckets hit every company
    exactly once and the Dropped Off volume is the count of the residual
    bucket. -/
theorem C3_terminal_partition (t : FTable) (eng : Option (List EngRow))
    (hdisj : ∀ r ∈ t.rows,
      ¬(production_flag t eng r = true ∧ paid_connect r = true))
    (hconn : ∀ r ∈ t.rows, r.connect_active = true → r.has_connect = true) :
    ((final_production t eng : Int) + final_paid t + final_no_further t eng +
      final_dropped t eng = (t.rows.length : Int)) ∧
    (∀ r ∈ t.rows,
      (production_flag t eng r).toNat + (paid_connect r).toNat +
        (no_further t eng r).toNat + (dropped_off t eng r).toNat = 1) ∧
    final_dropped t eng = (t.rows.countP (dropped_off t eng) : Int) := by
  have hone : ∀ r ∈ t.rows,
      (production_flag t eng r).toNat + (paid_connect r).toNat +
        (no_further t eng r).toNat + (dropped_off t eng r).toNat = 1 := by
    intro r hr
    have hpr : production_flag t eng r = true → no_further t eng r = false := by
      intro hp
      unfold no_further col4_engaged
      simp [prod_implies_ran t eng r hp]
    have hpd : paid_connect r = true → no_further t eng r = false := by
      intro hp
      unfold no_further col4_engaged
      simp [paid_implies_trial t r hr (hconn r hr) hp]
    cases hprod : production_flag t eng r with
    | true =>
      cases hpaid : paid_connect r with
      | true => exact absurd ⟨hprod, hpaid⟩ (hdisj r hr)
      | false => simp [dropped_off, hprod, hpaid, hpr hprod]
    | false =>
      cases hpaid : paid_connect r with
      | true => simp [dropped_off, hprod, hpaid, hpd hpaid]
      | false =>
        cases hn : no_further t eng r <;> simp [dropped_off, hprod, hpaid, hn]
  have hsum := countP_four_partition (production_flag t eng) paid_connect
    (no_further t eng) (dropped_off t eng) t.rows hone
  refine ⟨?_, hone, ?_⟩
  · unfold final_dropped
    ring
  · unfold final_dropped final_production final_paid final_no_further
    omega

/-- C3 witness: on a two-company table (one idle, one paid-Connect company)
    with no engagement data, the four volumes sum to the total of 2 and the
    Dropped Off volume equals the residual bucket count. -/
theorem C3_witness :
    ((final_production ⟨[], false,
        [⟨1, false, false, false, 0, []⟩, ⟨2, true, true, false, 0, []⟩]⟩ none : Int) +
      final_paid ⟨[], false,
        [⟨1, false, false, false, 0, []⟩, ⟨2, true, true, false, 0, []⟩]⟩ +
      final_no_further ⟨[], false,
        [⟨1, false, false, false, 0, []⟩, ⟨2, true, true, false, 0, []⟩]⟩ none +
      final_dropped ⟨[], false,
        [⟨1, false, false, false, 0, []⟩, ⟨2, true, true, false, 0, []⟩]⟩ none = 2) ∧
    final_dropped ⟨[], false,
        [⟨1, false, false, false, 0, []⟩, ⟨2, true, true, false, 0, []⟩]⟩ none =
      ((⟨[], false, [⟨1, false, false, false, 0, []⟩, ⟨2, true, true, false, 0, []⟩]⟩ :
        FTable).rows.countP (dropped_off ⟨[], false,
          [⟨1, false, false, false, 0, []⟩, ⟨2, true, true, false, 0, []⟩]⟩ none) : Int) := by
  constructor
  · simpa using (C3_terminal_partition ⟨[], false,
      [⟨1, false, false, false, 0, []⟩, ⟨2, true, true, false, 0, []⟩]⟩ none
      (by decide) (by decide)).1
  · exact (C3_terminal_partition ⟨[], false,
      [⟨1, false, false, false, 0, []⟩, ⟨2, true, true, false, 0, []⟩]⟩ none
      (by decide) (by decide)).2.2

/- ------------------------------------------------------------------ -/
/- C4 - exclusive column-3 node-type assignment                       -/
/- ------------------------------------------------------------------ -/

/-- The argmax index is in range, attains the maximum, and is the first
    position doing so (everything before it is strictly smaller). -/
theorem argmax_idx_spec : ∀ l : List Int, l ≠ [] →
    argmax_idx l < l.length ∧
    (∀ j < l.length, l.getD j 0 ≤ l.getD (argmax_idx l) 0) ∧
    (∀ j < argmax_idx l, l.getD j 0 < l.getD (argmax_idx l) 0) := by
  intro l
  induction l with
  | nil => exact fun h => absurd rfl h
  | cons x xs ih =>
    intro _
    cases xs with
    | nil =>
      refine ⟨by simp [argmax_idx], ?_, ?_⟩
      · intro j hj
        have hj0 : j = 0 := by simpa using hj
        subst hj0
        simp [argmax_idx]
      · intro j hj
        simp [argmax_idx] at hj
    | cons y rest =>
      obtain ⟨ih1, ih2, ih3⟩ := ih (by simp)
      by_cases hcmp : x < (y :: rest).getD (argmax_idx (y :: rest)) 0
      · have heq : argmax_idx (x :: y :: rest) = argmax_idx (y :: rest) + 1 := by
          simp only [argmax_idx]
          rw [if_pos hcmp]
        refine ⟨?_, ?_, ?_⟩
        · rw [heq]
          simpa using Nat.succ_lt_succ ih1
        · intro j hj
          rw [heq, List.getD_cons_succ]
          cases j with
          | zero => simpa [List.getD_cons_zero] using le_of_lt hcmp
          | succ k =>
            rw [List.getD_cons_succ]
            exact ih2 k (by simpa using hj)
        · intro j hj
          rw [heq] at hj
          rw [heq, List.getD_cons_succ]
          cases j with
          | zero => simpa [List.getD_cons_zero] using hcmp
          | succ k =>
            rw [List.getD_cons_succ]
            exact ih3 k (by omega)
      · have heq : argmax_idx (x :: y :: rest) = 0 := by
          simp only [argmax_idx]
          rw [if_neg hcmp]
        refine ⟨?_, ?_, ?_⟩
        · rw [heq]
          simp
        · intro j hj
          rw [heq, List.getD_cons_zero]
          cases j with
          | zero => simp
          | succ k =>
            rw [List.getD_cons_succ]
            have hk : k < (y :: rest).length := by simpa using hj
            exact le_trans (ih2 k hk) (not_lt.mp hcmp)
        · intro j hj
          rw [heq] at hj
          omega

/-- A 0/1-valued list with a positive sum contains a 1 at some position. -/
theorem exists_one_of_sum_pos : ∀ l : List Int, (∀ v ∈ l, v = 0 ∨ v = 1) →
    0 < l.sum → ∃ i, i < l.length ∧ l.getD i 0 = 1 := by
  intro l
  induction l with
  | nil => intro _ h; simp at h
  | cons v vs ih =>
    intro h01 hpos
    rcases h01 v (List.mem_cons_self v vs) with hv | hv
    · have : 0 < vs.sum := by
        rw [List.sum_cons, hv] at hpos
        simpa using hpos
      obtain ⟨i, hi, hone⟩ := ih (fun x hx => h01 x (List.mem_cons_of_mem v hx)) this
      exact ⟨i + 1, by simpa using hi, by rwa [List.getD_cons_succ]⟩
    · exact ⟨0, by simp, by simpa [List.getD_cons_zero] using hv⟩

/-- On a 0/1-valued list with a positive sum, the argmax position holds a 1
    and every earlier position holds a 0. -/
theorem argmax_zero_one (l : List Int) (h01 : ∀ v ∈ l, v = 0 ∨ v = 1)
    (hpos : 0 < l.sum) :
    l.getD (argmax_idx l) 0 = 1 ∧ ∀ j < argmax_idx l, l.getD j 0 = 0 := by
  have hne : l ≠ [] := by rintro rfl; simp at hpos
  obtain ⟨hlt, hmax, hfirst⟩ := argmax_idx_spec l hne
  obtain ⟨i, hi, hone⟩ := exists_one_of_sum_pos l h01 hpos
  have h1le : (1 : Int) ≤ l.getD (argmax_idx l) 0 := by
    have := hmax i hi
    omega
  have hmem : l.getD (argmax_idx l) 0 ∈ l := by
    rw [List.getD_eq_getElem l 0 hlt]
    exact List.getElem_mem hlt
  have hmax1 : l.getD (argmax_idx l) 0 = 1 := by
    rcases h01 _ hmem with h | h
    · omega
    · exact h
  refine ⟨hmax1, ?_⟩
  intro j hj
  have hlt2 := hfirst j hj
  have hjmem : l.getD j 0 ∈ l := by
    rw [List.getD_eq_getElem l 0 (lt_trans hj hlt)]
    exact List.getElem_mem _
  rcases h01 _ hjmem with h | h
  · exact h
  · omega

/-- Sums of pointwise sums split. -/
theorem sum_map_add_nat (f g : Nat → Nat) (l : List Nat) :
    (l.map (fun k => f k + g k)).sum = (l.map f).sum + (l.map g).sum := by
  induction l with
  | nil => rfl
  | cons x xs ih =>
    simp only [List.map_cons, List.sum_cons, ih]
    omega

/-- Summing a one-point indicator over an initial range. -/
theorem indicator_sum (m n : Nat) :
    ((List.range n).map (fun k => if m = k then 1 else 0)).sum =
      if m < n then 1 else 0 := by
  induction n with
  | zero => simp
  | succ n ih =>
    rw [List.range_succ, List.map_append, List.sum_append, ih]
    by_cases h : m = n
    · subst h
      simp [lt_irrefl, Nat.lt_succ_self]
    · by_cases h2 : m < n
      · simp [h, h2, show m < n + 1 by omega]
      · simp [h, h2, show ¬m < n + 1 by omega]

/-- Per-bucket counts of a bounded optional assignment sum to the count of
    assigned rows. -/
theorem bucket_sum (rows : List FRow) (f : FRow → Option Nat) (n : Nat)
    (hb : ∀ r ∈ rows, ∀ k, f r = some k → k < n) :
    ((List.range n).map (fun k => rows.countP (fun r => f r == some k))).sum =
      rows.countP (fun r => (f r).isSome) := by
  induction rows with
  | nil => simp
  | cons r rest ih =>
    have hbrest : ∀ x ∈ rest, ∀ k, f x = some k → k < n :=
      fun x hx => hb x (List.mem_cons_of_mem r hx)
    simp only [List.countP_cons]
    rw [sum_map_add_nat (fun k => rest.countP (fun x => f x == some k))
      (fun k => if (f r == some k) = true then 1 else 0) (List.range n),
      ih hbrest]
    cases hf : f r with
    | none => simp
    | some m =>
      have hm : m < n := hb r (List.mem_cons_self r rest) m hf
      have hson : ((List.range n).map
          (fun k => if (some m == some k) = true then 1 else 0)).sum = 1 := by
        have hcong : ((List.range n).map
            (fun k => if (some m == some k) = true then 1 else 0)) =
            ((List.range n).map (fun k => if m = k then 1 else 0)) := by
          apply List.map_congr_left
          intro k _
          simp
        rw [hcong, indicator_sum]
        simp [hm]
      simp only [hf, Option.isSome_some]
      rw [hson]
      simp

/-- A defined assignment indexes into the node-type order. -/
theorem node_type_assignment_lt (t : FTable) (r : FRow) (k : Nat)
    (h : node_type_assignment t r = some k) : k < (node_type_order t).length := by
  unfold node_type_assignment at h
  split_ifs at h with hc
  rw [Option.some_inj] at h
  subst h
  unfold flag_created at hc
  split_ifs at hc with hn
  have hsum : 0 < (row_vals t r).sum := by simpa using hc
  have hne : row_vals t r ≠ [] := by
    rintro hnil
    rw [hnil] at hsum
    simp at hsum
  have := (argmax_idx_spec (row_vals t r) hne).1
  simpa [row_vals] using this

/-- A column-3 bucket is assigned exactly to the created-node companies. -/
theorem assignment_isSome (t : FTable) (r : FRow) :
    (node_type_assignment t r).isSome = flag_created t r := by
  unfold node_type_assignment
  cases hc : flag_created t r <;> simp [hc]

/-- C4 counterexample: with a node-type flag column present but zero for
    every company, and a positive total_nodes_created, the fallback makes
    column 2 count the company as a node creator, yet column 3 assigns it to
    no bucket - so the column-3 volumes (0) do not sum to the column-2
    created volume (1). -/
theorem C4_counterexample :
    created_node ⟨["node_type_message"], true, [⟨1, false, false, false, 5, [0]⟩]⟩
      ⟨1, false, false, false, 5, [0]⟩ = true ∧
    node_type_assignment ⟨["node_type_message"], true,
      [⟨1, false, false, false, 5, [0]⟩]⟩ ⟨1, false, false, false, 5, [0]⟩ = none ∧
    col2_created_count ⟨["node_type_message"], true,
      [⟨1, false, false, false, 5, [0]⟩]⟩ = 1 ∧
    col3_total ⟨["node_type_message"], true, [⟨1, false, false, false, 5, [0]⟩]⟩ = 0 := by
  decide

/-- C4 (amended): when node-type flag columns exist and at least one company
    has a node-type flag set (so the total-nodes fallback is inactive), the
    column-2 created flag is the flag-based one; every created company is
    assigned exactly one column-3 bucket, indexed into the popularity order;
    the column-3 bucket volumes sum exactly to the column-2 created volume;
    and with 0/1 flags the assigned bucket is the first type in popularity
    order that the company used. -/
theorem C4_node_type_exclusive (t : FTable)
    (hsome : ∃ r ∈ t.rows, flag_created t r = true) :
    (∀ r ∈ t.rows, created_node t r = flag_created t r) ∧
    (∀ r ∈ t.rows, flag_created t r = true →
      ∃ k, node_type_assignment t r = some k ∧ k < (node_type_order t).length) ∧
    col3_total t = col2_created_count t ∧
    (∀ r ∈ t.rows, (∀ v ∈ row_vals t r, v = 0 ∨ v = 1) → flag_created t r = true →
      ∃ k, node_type_assignment t r = some k ∧ (row_vals t r).getD k 0 = 1 ∧
        ∀ j < k, (row_vals t r).getD j 0 = 0) := by
  have hfb : fallback_active t = false := by
    unfold fallback_active
    obtain ⟨r, hr, hflag⟩ := hsome
    have hpos : 0 < t.rows.countP (flag_created t) :=
      List.countP_pos_iff.mpr ⟨r, hr, hflag⟩
    simp [Nat.pos_iff_ne_zero.mp hpos]
  refine ⟨?_, ?_, ?_, ?_⟩
  · intro r _
    simp [created_node, hfb]
  · intro r _ hflag
    refine ⟨argmax_idx (row_vals t r), ?_, ?_⟩
    · unfold node_type_assignment
      rw [if_pos hflag]
    · exact node_type_assignment_lt t r _ (by
        unfold node_type_assignment
        rw [if_pos hflag])
  · unfold col3_total node_bucket_count col2_created_count
    rw [bucket_sum t.rows (node_type_assignment t) (node_type_order t).length
      (fun r _ k hk => node_type_assignment_lt t r k hk)]
    apply List.countP_congr
    intro r _
    simp [assignment_isSome, created_node, hfb]
  · intro r _ h01 hflag
    have hsum : 0 < (row_vals t r).sum := by
      unfold flag_created at hflag
      split_ifs at hflag with hn
      simpa using hflag
    obtain ⟨h1, h2⟩ := argmax_zero_one (row_vals t r) h01 hsum
    exact ⟨argmax_idx (row_vals t r), by
      unfold node_type_assignment
      rw [if_pos hflag], h1, h2⟩

/-- C4 witness: Scenario D - with message flagged by two companies and code
    by one, the popularity order is message before code, a company that used
    both is assigned exclusively to the message bucket (index 0), and the
    column-3 volumes sum to the column-2 created volume. -/
theorem C4_witness :
    node_type_order ⟨["node_type_message", "node_type_code"], false,
      [⟨1, false, false, false, 7, [1, 1]⟩, ⟨2, false, false, false, 5, [1, 0]⟩]⟩ =
      [0, 1] ∧
    node_type_assignment ⟨["node_type_message", "node_type_code"], false,
      [⟨1, false, false, false, 7, [1, 1]⟩, ⟨2, false, false, false, 5, [1, 0]⟩]⟩
      ⟨1, false, false, false, 7, [1, 1]⟩ = some 0 ∧
    col3_total ⟨["node_type_message", "node_type_code"], false,
      [⟨1, false, false, false, 7, [1, 1]⟩, ⟨2, false, false, false, 5, [1, 0]⟩]⟩ =
    col2_created_count ⟨["node_type_message", "node_type_code"], false,
      [⟨1, false, false, false, 7, [1, 1]⟩, ⟨2, false, false, false, 5, [1, 0]⟩]⟩ := by
  refine ⟨by decide, by decide, ?_⟩
  exact (C4_node_type_exclusive ⟨["node_type_message", "node_type_code"], false,
    [⟨1, false, false, false, 7, [1, 1]⟩, ⟨2, false, false, false, 5, [1, 0]⟩]⟩
    ⟨⟨1, false, false, false, 7, [1, 1]⟩, by decide, by decide⟩).2.2.1
